import Mathlib

/-!
Verification development for the pa-bot streaming signal engine.

The JavaScript sources are shallowly embedded over the rationals:
IEEE doubles are modelled as exact rationals, `x.toFixed(d)` followed by
`parseFloat` is modelled as rounding to `d` decimal places (`jsToFixed`),
and JavaScript `x || d` number defaulting is modelled by `if x = 0 then d
else x` on the already-parsed value.  Millisecond timestamps are integers.
-/

/-- `l.drop (l.length - n)`: the last `n` elements, as `Array.slice(-n)`. -/
def takeLast {α : Type} (n : Nat) (l : List α) : List α :=
  l.drop (l.length - n)

/-- Model of `parseFloat(x.toFixed(d))`: round to `d` decimal places
(ties rounded up, as `Math`-style rounding). -/
def jsToFixed (d : Nat) (x : ℚ) : ℚ :=
  ((round (x * 10 ^ d) : ℤ) : ℚ) / 10 ^ d

/-- Model of JavaScript `x || dflt` on a number already known to be finite:
`0` is the only falsy value. -/
def jsOrQ (x dflt : ℚ) : ℚ := if x = 0 then dflt else x

/-- Model of JavaScript `x || dflt` on an integer value. -/
def jsOrZ (x dflt : ℤ) : ℤ := if x = 0 then dflt else x

/-- `Math.max(...list)` over a list of rationals (callers guard nonemptiness;
the `[]` case is unreachable in the guarded code paths). -/
def listMaxQ : List ℚ → ℚ
  | [] => 0
  | x :: xs => xs.foldl max x

/-- `Math.min(...list)` over a list of rationals. -/
def listMinQ : List ℚ → ℚ
  | [] => 0
  | x :: xs => xs.foldl min x

/-- Sum of a list of rationals (`reduce((s, v) => s + v, 0)`). -/
def sumQ (l : List ℚ) : ℚ := l.foldl (fun s v => s + v) 0

/-- OHLCV candle, `src/binance/klinesCache.js` and throughout the
analysis stack. -/
structure Candle where
  openTime : ℤ
  closeTime : ℤ
  open_ : ℚ
  high : ℚ
  low : ℚ
  close : ℚ
  volume : ℚ
  isClosed : Bool
deriving DecidableEq, Repr

/-! ## Candle store (`src/binance/klinesCache.js`)

The nested javascript objects `cache[symbol][timeframe]` /
`formingCandles[symbol][timeframe]` are modelled as association lists keyed
by the `(symbol, timeframe)` pair; `init` creates both entries together, so
the flat view is observably equivalent to the nested one. -/

/-- Association-list lookup. -/
def alGet {V : Type} (k : String × String) (m : List ((String × String) × V)) :
    Option V :=
  (m.find? (fun e => e.1 = k)).map (fun e => e.2)

/-- Association-list insert-or-replace. -/
def alSet {V : Type} (k : String × String) (v : V)
    (m : List ((String × String) × V)) : List ((String × String) × V) :=
  match m with
  | [] => [(k, v)]
  | e :: rest => if e.1 = k then (k, v) :: rest else e :: alSet k v rest

/-- State of the `KlinesCache` singleton. -/
structure CacheState where
  cache : List ((String × String) × List Candle)
  forming : List ((String × String) × Option Candle)
deriving Repr

/-- The empty cache (fresh `new KlinesCache()`). -/
def emptyCache : CacheState := { cache := [], forming := [] }

/-- `init(symbol, timeframe, initialKlines)`. -/
def cacheInit (st : CacheState) (sym tf : String) (initial : List Candle) :
    CacheState :=
  { cache := alSet (sym, tf) initial st.cache
  , forming := alSet (sym, tf) none st.forming }

/-- The closed-list transformation done by `updateCandle` on a nonempty
list: replace the tail on equal `openTime`, else append and drop the head
when the length passes 1000. -/
def upsertNonempty (cs : List Candle) (c : Candle) : List Candle :=
  if (cs.getLast?.map Candle.openTime) = some c.openTime then
    cs.dropLast ++ [c]
  else
    let appended := cs ++ [c]
    if 1000 < appended.length then appended.tail else appended

/-- `updateCandle(symbol, timeframe, newCandle)`.  Uninitialized pairs are
a no-op; an empty list takes the early-return branch that pushes the candle
without touching the forming slot; otherwise the tail-replace/append logic
runs and, when the new candle `isClosed`, the forming slot is cleared. -/
def updateCandle (st : CacheState) (sym tf : String) (c : Candle) :
    CacheState :=
  match alGet (sym, tf) st.cache with
  | none => st
  | some cs =>
    if cs.isEmpty then
      { st with cache := alSet (sym, tf) [c] st.cache }
    else
      { cache := alSet (sym, tf) (upsertNonempty cs c) st.cache
      , forming :=
          if c.isClosed then alSet (sym, tf) none st.forming else st.forming }

/-- `updateFormingCandle(symbol, timeframe, formingCandle)`. -/
def updateFormingCandle (st : CacheState) (sym tf : String) (c : Candle) :
    CacheState :=
  { st with forming := alSet (sym, tf) (some c) st.forming }

/-- `get(symbol, timeframe)`: closed candles only, `[]` when missing. -/
def cacheGet (st : CacheState) (sym tf : String) : List Candle :=
  (alGet (sym, tf) st.cache).getD []

/-- `getFormingCandle(symbol, timeframe)`. -/
def getFormingCandle (st : CacheState) (sym tf : String) : Option Candle :=
  (alGet (sym, tf) st.forming).getD none

/-- `getWithForming(symbol, timeframe)`: closed candles plus the forming
candle when present. -/
def getWithForming (st : CacheState) (sym tf : String) : List Candle :=
  let closed := cacheGet st sym tf
  match getFormingCandle st sym tf with
  | some f => closed ++ [f]
  | none => closed

/-- A store operation, for invariants over arbitrary call sequences. -/
inductive CacheOp where
  | opInit (sym tf : String) (initial : List Candle)
  | opUpdate (sym tf : String) (c : Candle)
  | opForming (sym tf : String) (c : Candle)
deriving Repr

/-- Apply one store operation. -/
def applyOp (st : CacheState) : CacheOp → CacheState
  | .opInit sym tf initial => cacheInit st sym tf initial
  | .opUpdate sym tf c => updateCandle st sym tf c
  | .opForming sym tf c => updateFormingCandle st sym tf c

/-- Apply a sequence of store operations. -/
def applyOps (st : CacheState) (ops : List CacheOp) : CacheState :=
  ops.foldl applyOp st

/-- Strictly ascending `openTime`. -/
def TimeSorted (cs : List Candle) : Prop :=
  List.Pairwise (fun a b => a.openTime < b.openTime) cs

instance : DecidablePred TimeSorted := fun cs =>
  inferInstanceAs (Decidable (List.Pairwise _ cs))

/-- Store invariant for one closed list: strictly ascending and within the
retention cap of 1000. -/
def GoodList (cs : List Candle) : Prop := TimeSorted cs ∧ cs.length ≤ 1000

instance : DecidablePred GoodList := fun cs =>
  inferInstanceAs (Decidable (TimeSorted cs ∧ cs.length ≤ 1000))

/-- Run a sequence of `updateCandle` calls for a fixed pair. -/
def runUpdates (st : CacheState) (sym tf : String) (events : List Candle) :
    CacheState :=
  events.foldl (fun s c => updateCandle s sym tf c) st

/-! ## Pivots (modelled from the spec)

`src/pa/pivots.js` is not among the sources (only its callers are), so the
pivot functions are modelled from spec section 4.2. -/

/-- The `high` of candle `j`, 0 when out of range. -/
def candleHigh (cs : List Candle) (j : Nat) : ℚ :=
  ((cs.get? j).map Candle.high).getD 0

/-- The `low` of candle `j`, 0 when out of range. -/
def candleLow (cs : List Candle) (j : Nat) : ℚ :=
  ((cs.get? j).map Candle.low).getD 0

/-- Modelled from the spec: index `i` with window `w` is a pivot high when
`i ∈ [w, n−w−1]` and `candle[i].high > candle[j].high` for every
`j ∈ [i−w, i+w]`, `j ≠ i` (`src/pa/pivots.js` is missing from the sources). -/
def isPivotHigh (cs : List Candle) (w i : Nat) : Bool :=
  decide (w ≤ i) && decide (i + w < cs.length) &&
    (List.range (2 * w + 1)).all fun o =>
      decide (i - w + o = i) || decide (candleHigh cs (i - w + o) < candleHigh cs i)

/-- Modelled from the spec: pivot low, symmetric to `isPivotHigh`
(`src/pa/pivots.js` is missing from the sources). -/
def isPivotLow (cs : List Candle) (w i : Nat) : Bool :=
  decide (w ≤ i) && decide (i + w < cs.length) &&
    (List.range (2 * w + 1)).all fun o =>
      decide (i - w + o = i) || decide (candleLow cs i < candleLow cs (i - w + o))

/-- Modelled from the spec: `getRecentPivotHighs(candles, w, k)` returns
the last `k` pivot-high indices, in ascending order. -/
def getRecentPivotHighs (cs : List Candle) (w k : Nat) : List Nat :=
  takeLast k ((List.range cs.length).filter (isPivotHigh cs w))

/-- Modelled from the spec: `getRecentPivotLows(candles, w, k)`. -/
def getRecentPivotLows (cs : List Candle) (w k : Nat) : List Nat :=
  takeLast k ((List.range cs.length).filter (isPivotLow cs w))

/-! ## Zones (`src/pa/zones.js`) -/

/-- Zone type tag. -/
inductive ZType where
  | support
  | resistance
deriving DecidableEq, Repr

/-- A support/resistance zone.  The javascript `key` string
`` `${type}_${price.toFixed(2)}` `` is modelled as the pair of the type tag
and the price rounded to cents. -/
structure Zone where
  center : ℚ
  upper : ℚ
  lower : ℚ
  ztype : ZType
  timestamp : ℤ
  touches : ℕ
  zkey : ZType × ℤ
deriving DecidableEq, Repr

/-- `createZone(price, tolerance, type, timestamp)`. -/
def createZone (price tolerance : ℚ) (ztype : ZType) (timestamp : ℤ) : Zone :=
  let toleranceAmount := price * (tolerance / 100)
  { center := price
  , upper := price + toleranceAmount
  , lower := price - toleranceAmount
  , ztype := ztype
  , timestamp := timestamp
  , touches := 0
  , zkey := (ztype, round (price * 100)) }

/-- Zone comparison used by `zones.sort((a, b) => a.center - b.center)`. -/
def zoneLE (a b : Zone) : Prop := a.center ≤ b.center

instance : DecidableRel zoneLE := fun a b =>
  inferInstanceAs (Decidable (a.center ≤ b.center))

instance : IsTotal Zone zoneLE := ⟨fun a b => le_total a.center b.center⟩

instance : IsTrans Zone zoneLE := ⟨fun _ _ _ hab hbc => le_trans hab hbc⟩

/-- The percentage distance `(|b − a| / ((a + b) / 2)) * 100` used by
`mergeNearbyZones`. -/
def diffPercent (a b : ℚ) : ℚ := (|b - a| / ((b + a) / 2)) * 100

/-- Merge `current` into `lastMerged`: average centers, widen bounds, sum
touches; the remaining fields stay those of `lastMerged`. -/
def mergeTwo (lastMerged current : Zone) : Zone :=
  { lastMerged with
      center := (lastMerged.center + current.center) / 2
    , upper := max lastMerged.upper current.upper
    , lower := min lastMerged.lower current.lower
    , touches := lastMerged.touches + current.touches }

/-- One step of the left-to-right merging sweep; the accumulator keeps the
merged zones in reversed order, so its head is `merged[merged.length-1]`. -/
def mergeStep (thr : ℚ) (acc : List Zone) (current : Zone) : List Zone :=
  match acc with
  | [] => [current]
  | lastMerged :: rest =>
    if diffPercent lastMerged.center current.center ≤ thr then
      mergeTwo lastMerged current :: rest
    else
      current :: lastMerged :: rest

/-- `mergeNearbyZones(zones, mergeThreshold)`: sort by center (a stable
sort, as ECMAScript requires) and sweep left-to-right merging adjacent
zones whose percentage distance is within the threshold. -/
def mergeNearbyZones (zones : List Zone) (thr : ℚ) : List Zone :=
  (((zones.insertionSort zoneLE).foldl (mergeStep thr) []).reverse)

/-- Ordering produced by the merge sweep: ascending centers whose
percentage distance exceeds the merge threshold. -/
def MergeOrd (thr : ℚ) (a b : Zone) : Prop :=
  a.center ≤ b.center ∧ thr < diffPercent a.center b.center

/-- Pair of support and resistance zone lists. -/
structure ZonePair where
  support : List Zone
  resistance : List Zone
deriving DecidableEq, Repr

/-- `buildZones(candles, lookback, window, tolerance)`. -/
def buildZones (candles : List Candle) (lookback window : Nat)
    (tolerance : ℚ) : ZonePair :=
  let recentCandles := takeLast lookback candles
  let pivotHighIndices := getRecentPivotHighs recentCandles window 20
  let pivotLowIndices := getRecentPivotLows recentCandles window 20
  let resistanceZones := pivotHighIndices.map fun idx =>
    createZone (candleHigh recentCandles idx) tolerance .resistance
      (((recentCandles.get? idx).map Candle.openTime).getD 0)
  let supportZones := pivotLowIndices.map fun idx =>
    createZone (candleLow recentCandles idx) tolerance .support
      (((recentCandles.get? idx).map Candle.openTime).getD 0)
  { resistance := mergeNearbyZones resistanceZones (tolerance * 2)
  , support := mergeNearbyZones supportZones (tolerance * 2) }

/-- `isTouchingZone(price, zone)`. -/
def isTouchingZone (price : ℚ) (zone : Zone) : Bool :=
  decide (zone.lower ≤ price) && decide (price ≤ zone.upper)

/-- `findNearestZone(price, zones, maxDistance)`: nearest zone by absolute
center distance among those within `maxDistance` percent; on ties the
earlier zone wins (strict `<` update). -/
def findNearestZone (price : ℚ) (zones : List Zone) (maxDistance : ℚ) :
    Option Zone :=
  (zones.foldl
    (fun best zone =>
      let distance := |price - zone.center|
      let distancePercent := distance / price * 100
      match best with
      | none =>
        if distancePercent ≤ maxDistance then some (zone, distance) else best
      | some b =>
        if distancePercent ≤ maxDistance ∧ distance < b.2 then
          some (zone, distance)
        else best)
    none).map Prod.fst

/-- Zone decorated with its distance from entry, produced by
`findNextOpposingZones` via object spread. -/
structure OppZone where
  z : Zone
  distance : ℚ
  distancePercent : ℚ
deriving DecidableEq, Repr

/-- Comparison for `opposingZones.sort((a, b) => a.distance - b.distance)`. -/
def oppLE (a b : OppZone) : Prop := a.distance ≤ b.distance

instance : DecidableRel oppLE := fun a b =>
  inferInstanceAs (Decidable (a.distance ≤ b.distance))

instance : IsTotal OppZone oppLE := ⟨fun a b => le_total a.distance b.distance⟩

instance : IsTrans OppZone oppLE := ⟨fun _ _ _ hab hbc => le_trans hab hbc⟩

/-- Trade direction. -/
inductive Side where
  | LONG
  | SHORT
deriving DecidableEq, Repr

/-- `findNextOpposingZones(entryPrice, zones, side, maxTargets)`. -/
def findNextOpposingZones (entryPrice : ℚ) (zones : List Zone) (side : Side)
    (maxTargets : Nat) : List OppZone :=
  let opposingZones := zones.filterMap fun zone =>
    match side with
    | .LONG =>
      if entryPrice < zone.center then
        some { z := zone
             , distance := zone.center - entryPrice
             , distancePercent := (zone.center - entryPrice) / entryPrice * 100 }
      else none
    | .SHORT =>
      if zone.center < entryPrice then
        some { z := zone
             , distance := entryPrice - zone.center
             , distancePercent := (entryPrice - zone.center) / entryPrice * 100 }
      else none
  (opposingZones.insertionSort oppLE).take maxTargets

/-- One step of `findStopLossZone`'s scan: keep the qualifying zone with
the strictly smallest center distance (ties keep the earlier zone). -/
def slStep (side : Side) (entryPrice : ℚ) (best : Option (Zone × ℚ))
    (zone : Zone) : Option (Zone × ℚ) :=
  let qualifies : Bool := match side with
    | .LONG => decide (zone.center < entryPrice)
    | .SHORT => decide (entryPrice < zone.center)
  let distance := |entryPrice - zone.center|
  if qualifies then
    match best with
    | none => some (zone, distance)
    | some b => if distance < b.2 then some (zone, distance) else best
  else best

/-- `findStopLossZone(entryPrice, zones, side)`: nearest zone with center
strictly on the loss side of entry. -/
def findStopLossZone (entryPrice : ℚ) (zones : List Zone) (side : Side) :
    Option Zone :=
  (zones.foldl (slStep side entryPrice) none).map Prod.fst

/-! ## Patterns (`src/pa/patterns.js`)

Each `detectX` returns `{isX: false}` or a full record; this is modelled as
`Option PatternR`.  `PatternR` keeps the claim-relevant fields
`type`/`name`/`strength`; the extra decorative fields (`rejection`,
`level`, `breakoutLevel`) of some detectors are not carried. -/

/-- Pattern direction tag. -/
inductive PType where
  | bullish
  | bearish
  | neutral
deriving DecidableEq, Repr

/-- A detected candlestick pattern. -/
structure PatternR where
  type : PType
  name : String
  strength : ℚ
deriving DecidableEq, Repr

/-- Out-of-range placeholder; every use of `candleAt` in the embedding is
guarded by a length check, so the placeholder is never observed. -/
def defaultCandle : Candle :=
  { openTime := 0, closeTime := 0, open_ := 0, high := 0, low := 0
  , close := 0, volume := 0, isClosed := false }

/-- `candles[i]` under an in-range guard. -/
def candleAt (cs : List Candle) (i : Nat) : Candle :=
  (cs.get? i).getD defaultCandle

/-- `detectPinBar(candle)`. -/
def detectPinBar (candle : Candle) : Option PatternR :=
  let body := |candle.close - candle.open_|
  let range := candle.high - candle.low
  if range = 0 then none
  else
    let upperWick := candle.high - max candle.open_ candle.close
    let lowerWick := min candle.open_ candle.close - candle.low
    let bodyPercent := body / range * 100
    let upperWickPercent := upperWick / range * 100
    let lowerWickPercent := lowerWick / range * 100
    if bodyPercent < 30 then
      if lowerWickPercent > 60 ∧ upperWickPercent < 20 then
        some { type := .bullish, name := "Hammer"
             , strength := lowerWickPercent / 100 }
      else if upperWickPercent > 60 ∧ lowerWickPercent < 20 then
        some { type := .bearish, name := "Shooting Star"
             , strength := upperWickPercent / 100 }
      else none
    else none

/-- `detectEngulfing(prevCandle, currentCandle)`.  Note: the source computes
`prevIsBullish` from `currentCandle` (a slip kept by the embedding), so the
bearish branch can never fire together with `currentIsBearish`. -/
def detectEngulfing (prevCandle currentCandle : Candle) : Option PatternR :=
  let prevBody := |prevCandle.close - prevCandle.open_|
  let currentBody := |currentCandle.close - currentCandle.open_|
  let prevIsBullish := currentCandle.close > currentCandle.open_
  let prevIsBearish := prevCandle.close < prevCandle.open_
  let currentIsBullish := currentCandle.close > currentCandle.open_
  let currentIsBearish := currentCandle.close < currentCandle.open_
  if prevIsBearish ∧ currentIsBullish ∧
      currentCandle.open_ ≤ prevCandle.close ∧
      prevCandle.open_ ≤ currentCandle.close ∧ prevBody < currentBody then
    some { type := .bullish, name := "Bullish Engulfing"
         , strength := currentBody / prevBody }
  else if prevIsBullish ∧ currentIsBearish ∧
      prevCandle.close ≤ currentCandle.open_ ∧
      currentCandle.close ≤ prevCandle.open_ ∧ prevBody < currentBody then
    some { type := .bearish, name := "Bearish Engulfing"
         , strength := currentBody / prevBody }
  else none

/-- `detectDoji(candle)`. -/
def detectDoji (candle : Candle) : Option PatternR :=
  let body := |candle.close - candle.open_|
  let range := candle.high - candle.low
  if range = 0 then none
  else
    let bodyPercent := body / range * 100
    if bodyPercent < 5 then
      some { type := .neutral, name := "Doji"
           , strength := 1 - bodyPercent / 5 }
    else none

/-- `detectTweezerTop(prevCandle, currentCandle)`. -/
def detectTweezerTop (prevCandle currentCandle : Candle) : Option PatternR :=
  let highDiff := |prevCandle.high - currentCandle.high|
  let avgHigh := (prevCandle.high + currentCandle.high) / 2
  let tolerance := avgHigh * (2 / 1000)
  if highDiff < tolerance ∧ prevCandle.open_ < prevCandle.close ∧
      currentCandle.close < currentCandle.open_ then
    some { type := .bearish, name := "Tweezer Top"
         , strength := 1 - highDiff / avgHigh }
  else none

/-- `detectTweezerBottom(prevCandle, currentCandle)`. -/
def detectTweezerBottom (prevCandle currentCandle : Candle) : Option PatternR :=
  let lowDiff := |prevCandle.low - currentCandle.low|
  let avgLow := (prevCandle.low + currentCandle.low) / 2
  let tolerance := avgLow * (2 / 1000)
  if lowDiff < tolerance ∧ prevCandle.close < prevCandle.open_ ∧
      currentCandle.open_ < currentCandle.close then
    some { type := .bullish, name := "Tweezer Bottom"
         , strength := 1 - lowDiff / avgLow }
  else none

/-- `detectMorningStar(candles)` (3-candle bullish star). -/
def detectMorningStar (cs : List Candle) : Option PatternR :=
  if cs.length < 3 then none
  else
    let first := candleAt cs (cs.length - 3)
    let second := candleAt cs (cs.length - 2)
    let third := candleAt cs (cs.length - 1)
    let firstBody := |first.close - first.open_|
    let secondBody := |second.close - second.open_|
    let secondRange := second.high - second.low
    let thirdBody := |third.close - third.open_|
    if first.close < first.open_ ∧
        (0 < secondRange ∧ secondBody / secondRange < 3 / 10) ∧
        third.open_ < third.close ∧ firstBody * (1 / 2) < thirdBody then
      some { type := .bullish, name := "Morning Star"
           , strength := thirdBody / (firstBody + 1 / 10000) }
    else none

/-- `detectEveningStar(candles)` (3-candle bearish star). -/
def detectEveningStar (cs : List Candle) : Option PatternR :=
  if cs.length < 3 then none
  else
    let first := candleAt cs (cs.length - 3)
    let second := candleAt cs (cs.length - 2)
    let third := candleAt cs (cs.length - 1)
    let firstBody := |first.close - first.open_|
    let secondBody := |second.close - second.open_|
    let secondRange := second.high - second.low
    let thirdBody := |third.close - third.open_|
    if first.open_ < first.close ∧
        (0 < secondRange ∧ secondBody / secondRange < 3 / 10) ∧
        third.close < third.open_ ∧ firstBody * (1 / 2) < thirdBody then
      some { type := .bearish, name := "Evening Star"
           , strength := thirdBody / (firstBody + 1 / 10000) }
    else none

/-- `detectInsideBar(prevCandle, currentCandle)`. -/
def detectInsideBar (prevCandle currentCandle : Candle) : Option PatternR :=
  if currentCandle.high ≤ prevCandle.high ∧ prevCandle.low ≤ currentCandle.low then
    some { type := .neutral, name := "Inside Bar"
         , strength :=
             1 - (currentCandle.high - currentCandle.low) /
                 (prevCandle.high - prevCandle.low) }
  else none

/-- `detect2BarReversal(prevCandle, currentCandle)`. -/
def detect2BarReversal (prevCandle currentCandle : Candle) : Option PatternR :=
  if currentCandle.low < prevCandle.low ∧ prevCandle.high < currentCandle.close then
    let range := currentCandle.high - currentCandle.low
    some { type := .bullish, name := "2-Bar Reversal (Bullish)"
         , strength :=
             if 0 < range then (currentCandle.close - currentCandle.low) / range
             else 0 }
  else if prevCandle.high < currentCandle.high ∧
      currentCandle.close < prevCandle.low then
    let range := currentCandle.high - currentCandle.low
    some { type := .bearish, name := "2-Bar Reversal (Bearish)"
         , strength :=
             if 0 < range then (currentCandle.high - currentCandle.close) / range
             else 0 }
  else none

/-- `detectReversalPattern(candles)`: the source priority chain
(3-candle stars, 2-bar reversal, tweezers, pin bar, engulfing, doji,
inside bar). -/
def detectReversalPattern (cs : List Candle) : Option PatternR :=
  if cs.length < 2 then none
  else
    let currentCandle := candleAt cs (cs.length - 1)
    let prevCandle := candleAt cs (cs.length - 2)
    let threeCandle : Option PatternR :=
      if 3 ≤ cs.length then
        match detectMorningStar cs with
        | some p => some p
        | none => detectEveningStar cs
      else none
    match threeCandle with
    | some p => some p
    | none =>
      match detect2BarReversal prevCandle currentCandle with
      | some p => some p
      | none =>
        match detectTweezerTop prevCandle currentCandle with
        | some p => some p
        | none =>
          match detectTweezerBottom prevCandle currentCandle with
          | some p => some p
          | none =>
            match detectPinBar currentCandle with
            | some p => some p
            | none =>
              match detectEngulfing prevCandle currentCandle with
              | some p => some p
              | none =>
                match detectDoji currentCandle with
                | some p => some p
                | none => detectInsideBar prevCandle currentCandle

/-- The priority order stated by the spec (3-bar, 2-bar reversal, tweezers,
engulfing, inside-bar, pin-bar, doji), written from the spec sentence for
comparison with the source order. -/
def detectReversalPatternSpecOrder (cs : List Candle) : Option PatternR :=
  if cs.length < 2 then none
  else
    let currentCandle := candleAt cs (cs.length - 1)
    let prevCandle := candleAt cs (cs.length - 2)
    let threeCandle : Option PatternR :=
      if 3 ≤ cs.length then
        match detectMorningStar cs with
        | some p => some p
        | none => detectEveningStar cs
      else none
    match threeCandle with
    | some p => some p
    | none =>
      match detect2BarReversal prevCandle currentCandle with
      | some p => some p
      | none =>
        match detectTweezerTop prevCandle currentCandle with
        | some p => some p
        | none =>
          match detectTweezerBottom prevCandle currentCandle with
          | some p => some p
          | none =>
            match detectEngulfing prevCandle currentCandle with
            | some p => some p
            | none =>
              match detectInsideBar prevCandle currentCandle with
              | some p => some p
              | none =>
                match detectPinBar currentCandle with
                | some p => some p
                | none => detectDoji currentCandle

/-- Rejection-wick direction tag. -/
inductive RejKind where
  | upside
  | downside
deriving DecidableEq, Repr

/-- Result of `getCandleStrength(candle)`. -/
structure CandleStrengthR where
  strength : ℚ
  direction : PType
  isBullish : Bool
  isBearish : Bool
  bodyPercent : ℚ
  closeLocation : ℚ
  upperWickPercent : ℚ
  lowerWickPercent : ℚ
  rejection : Option (RejKind × ℚ)
deriving DecidableEq, Repr

/-- `getCandleStrength(candle)`. -/
def getCandleStrength (candle : Candle) : CandleStrengthR :=
  let body := |candle.close - candle.open_|
  let range := candle.high - candle.low
  if range = 0 then
    { strength := 0, direction := .neutral, isBullish := false
    , isBearish := false, bodyPercent := 0, closeLocation := 1 / 2
    , upperWickPercent := 0, lowerWickPercent := 0, rejection := none }
  else
    let bodyPercent := body / range * 100
    let isBullish := decide (candle.open_ < candle.close)
    let isBearish := decide (candle.close < candle.open_)
    let closeLocation := (candle.close - candle.low) / range
    let upperWick := candle.high - max candle.open_ candle.close
    let lowerWick := min candle.open_ candle.close - candle.low
    let upperWickPercent := upperWick / range * 100
    let lowerWickPercent := lowerWick / range * 100
    let rejection : Option (RejKind × ℚ) :=
      if 40 < upperWickPercent then some (.upside, upperWickPercent / 100)
      else if 40 < lowerWickPercent then some (.downside, lowerWickPercent / 100)
      else none
    { strength := bodyPercent / 100
    , direction := if isBullish then .bullish
        else if isBearish then .bearish else .neutral
    , isBullish := isBullish, isBearish := isBearish
    , bodyPercent := bodyPercent, closeLocation := closeLocation
    , upperWickPercent := upperWickPercent
    , lowerWickPercent := lowerWickPercent, rejection := rejection }

/-! ## Setups (`src/pa/setups.js`) -/

/-- Engine configuration after `SignalEngine`'s constructor resolution
(`src/app/engine.js`). -/
structure EngineConfig where
  pivotWindow : ℕ
  zoneLookback : ℕ
  zoneTolerance : ℚ
  volumeSpikeThreshold : ℚ
  minScore : ℤ
  setupScoreThreshold : ℤ
  entryScoreThreshold : ℤ
  cooldownMinutes : ℤ
  zoneSLBuffer : ℚ
  minZonesRequired : ℤ
  minRR : ℚ
  antiChaseMaxATR : ℚ
  antiChaseMaxPct : ℚ
  rsiDivergenceBonus : ℤ
  requireVolumeConfirmation : Bool
  setupStageEnabled : Bool
  entryStageEnabled : Bool
  entryTimeframes : List String
  htfTimeframes : List String
deriving Repr

/-- Model of JavaScript `x || dflt` on a natural number. -/
def jsOrNat (x dflt : ℕ) : ℕ := if x = 0 then dflt else x

/-- Setup type string. -/
inductive SetupType where
  | reversal
  | breakout
  | breakdown
  | retest
  | false_breakout
  | false_breakdown
deriving DecidableEq, Repr

/-- A detected setup.  Fields absent on some source objects (`volumeSpike`,
`isTrue` — `undefined` and `false` are observably the same truthy value
downstream) are plain booleans; `volumeRatio` is optional; `zones` starts
empty and is attached by `detectSetup`. -/
structure Setup where
  type : SetupType
  side : Side
  pattern : Option PatternR
  zone : Option Zone
  price : ℚ
  name : String
  volumeSpike : Bool
  volumeRatio : Option ℚ
  isTrue : Bool
  zones : ZonePair
deriving DecidableEq, Repr

/-- Empty zone pair. -/
def noZones : ZonePair := { support := [], resistance := [] }

/-- `calculateAverageVolume(candles, period)`: shrinks the period to the
list length, then averages the last `period` volumes. -/
def calculateAverageVolume (candles : List Candle) (period : ℕ) : ℚ :=
  let period := if candles.length < period then candles.length else period
  let recentCandles := takeLast period candles
  sumQ (recentCandles.map Candle.volume) / period

/-- `hasVolumeSpark(currentVolume, avgVolume, threshold)`. -/
def hasVolumeSpark (currentVolume avgVolume threshold : ℚ) : Bool :=
  decide (avgVolume * threshold < currentVolume)

/-- `detectReversalSetup(candles, zones, config)`. -/
def detectReversalSetup (candles : List Candle) (zones : ZonePair) :
    Option Setup :=
  if candles.length < 20 then none
  else
    let currentCandle := candleAt candles (candles.length - 1)
    let currentPrice := currentCandle.close
    match detectReversalPattern candles with
    | none => none
    | some pattern =>
      match pattern.type with
      | .bullish =>
        match findNearestZone currentPrice zones.support 1 with
        | some nearestSupport =>
          if isTouchingZone currentPrice nearestSupport then
            some { type := .reversal, side := .LONG, pattern := some pattern
                 , zone := some nearestSupport, price := currentPrice
                 , name := "Bullish Reversal at Support"
                 , volumeSpike := false, volumeRatio := none
                 , isTrue := false, zones := noZones }
          else none
        | none => none
      | .bearish =>
        match findNearestZone currentPrice zones.resistance 1 with
        | some nearestResistance =>
          if isTouchingZone currentPrice nearestResistance then
            some { type := .reversal, side := .SHORT, pattern := some pattern
                 , zone := some nearestResistance, price := currentPrice
                 , name := "Bearish Reversal at Resistance"
                 , volumeSpike := false, volumeRatio := none
                 , isTrue := false, zones := noZones }
          else none
        | none => none
      | .neutral => none

/-- `detectBreakoutSetup(candles, zones, config)`: first match over the
resistance list (breakout, then wick rejection), then the support list. -/
def detectBreakoutSetup (candles : List Candle) (zones : ZonePair)
    (cfg : EngineConfig) : Option Setup :=
  if candles.length < 20 then none
  else
    let currentCandle := candleAt candles (candles.length - 1)
    let prevCandle := candleAt candles (candles.length - 2)
    let currentPrice := currentCandle.close
    let avgVolume := calculateAverageVolume candles 20
    let volumeSpike :=
      hasVolumeSpark currentCandle.volume avgVolume
        (jsOrQ cfg.volumeSpikeThreshold (3 / 2))
    let viaResistance := zones.resistance.findSome? fun zone =>
      if prevCandle.close < zone.center ∧ zone.upper < currentCandle.close then
        if volumeSpike then
          some { type := .breakout, side := .LONG, pattern := none
               , zone := some zone, price := currentPrice
               , name := "True Breakout Above Resistance"
               , volumeSpike := true
               , volumeRatio := some (currentCandle.volume / avgVolume)
               , isTrue := true, zones := noZones }
        else
          some { type := .breakout, side := .SHORT, pattern := none
               , zone := some zone, price := currentPrice
               , name := "False Breakout (Weak Volume)"
               , volumeSpike := false
               , volumeRatio := some (currentCandle.volume / avgVolume)
               , isTrue := false, zones := noZones }
      else if zone.upper < currentCandle.high ∧
          currentCandle.close < zone.upper ∧ ¬volumeSpike then
        some { type := .false_breakout, side := .SHORT, pattern := none
             , zone := some zone, price := currentPrice
             , name := "False Breakout Rejection"
             , volumeSpike := false
             , volumeRatio := some (currentCandle.volume / avgVolume)
             , isTrue := false, zones := noZones }
      else none
    match viaResistance with
    | some s => some s
    | none =>
      zones.support.findSome? fun zone =>
        if zone.center < prevCandle.close ∧ currentCandle.close < zone.lower then
          if volumeSpike then
            some { type := .breakdown, side := .SHORT, pattern := none
                 , zone := some zone, price := currentPrice
                 , name := "True Breakdown Below Support"
                 , volumeSpike := true
                 , volumeRatio := some (currentCandle.volume / avgVolume)
                 , isTrue := true, zones := noZones }
          else
            some { type := .breakdown, side := .LONG, pattern := none
                 , zone := some zone, price := currentPrice
                 , name := "False Breakdown (Weak Volume)"
                 , volumeSpike := false
                 , volumeRatio := some (currentCandle.volume / avgVolume)
                 , isTrue := false, zones := noZones }
        else if currentCandle.low < zone.lower ∧
            zone.lower < currentCandle.close ∧ ¬volumeSpike then
          some { type := .false_breakdown, side := .LONG, pattern := none
               , zone := some zone, price := currentPrice
               , name := "False Breakdown Rejection"
               , volumeSpike := false
               , volumeRatio := some (currentCandle.volume / avgVolume)
               , isTrue := false, zones := noZones }
        else none

/-- `detectRetestSetup(candles, zones, config)`. -/
def detectRetestSetup (candles : List Candle) (zones : ZonePair) :
    Option Setup :=
  if candles.length < 30 then none
  else
    let currentCandle := candleAt candles (candles.length - 1)
    let currentPrice := currentCandle.close
    let recentCandles := takeLast 20 candles
    let viaResistance := zones.resistance.findSome? fun zone =>
      if zone.center < currentPrice ∧ isTouchingZone currentPrice zone ∧
          recentCandles.any (fun c => decide (zone.upper < c.close)) then
        match detectReversalPattern candles with
        | some pattern =>
          if pattern.type = .bullish then
            some { type := .retest, side := .LONG, pattern := some pattern
                 , zone := some zone, price := currentPrice
                 , name := "Retest of Broken Resistance"
                 , volumeSpike := false, volumeRatio := none
                 , isTrue := false, zones := noZones }
          else none
        | none => none
      else none
    match viaResistance with
    | some s => some s
    | none =>
      zones.support.findSome? fun zone =>
        if currentPrice < zone.center ∧ isTouchingZone currentPrice zone ∧
            recentCandles.any (fun c => decide (c.close < zone.lower)) then
          match detectReversalPattern candles with
          | some pattern =>
            if pattern.type = .bearish then
              some { type := .retest, side := .SHORT, pattern := some pattern
                   , zone := some zone, price := currentPrice
                   , name := "Retest of Broken Support"
                   , volumeSpike := false, volumeRatio := none
                   , isTrue := false, zones := noZones }
            else none
          | none => none
        else none

/-- `detectSetup(candles, config)`: build zones, apply the
`minZonesRequired` gate (note the `config.minZonesRequired || 2`
defaulting), then try reversal, breakout, retest, attaching the zones to
whichever setup fires. -/
def detectSetup (candles : List Candle) (cfg : EngineConfig) : Option Setup :=
  let zones := buildZones candles (jsOrNat cfg.zoneLookback 100)
    (jsOrNat cfg.pivotWindow 5) (jsOrQ cfg.zoneTolerance (1 / 2))
  let minZonesRequired := jsOrZ cfg.minZonesRequired 2
  let totalZones := zones.support.length + zones.resistance.length
  if (totalZones : ℤ) < minZonesRequired then none
  else
    match detectReversalSetup candles zones with
    | some setup => some { setup with zones := zones }
    | none =>
      match detectBreakoutSetup candles zones cfg with
      | some setup => some { setup with zones := zones }
      | none =>
        match detectRetestSetup candles zones with
        | some setup => some { setup with zones := zones }
        | none => none

/-! ## Scoring and levels (`src/pa/score.js`) -/

/-- Result of `checkHTFAlignment` (defined in the external `structure.js`,
consumed here by value). -/
structure HTFAlign where
  aligned : Bool
  score : ℚ
deriving DecidableEq, Repr

/-- RSI divergence flags (result of the external `detectRSIDivergence`). -/
structure Divergence where
  bullish : Bool
  bearish : Bool
deriving DecidableEq, Repr

/-- `calculateHTFScore(side, htfAlignment)` (the `side` parameter is unused
by the source body as well). -/
def calculateHTFScore (_side : Side) (htfAlignment : Option HTFAlign) : ℚ :=
  match htfAlignment with
  | none => 15
  | some h => if h.aligned then 25 + h.score * 5 else 5 + h.score * 15

/-- `calculateSetupScore(setup)`.  The javascript
`if (setup.pattern && setup.pattern.strength)` guard only skips adding a
zero, so the bonus is added unconditionally when a pattern is present. -/
def calculateSetupScore (setup : Setup) : ℚ :=
  let score : ℚ := 10 +
    (if setup.type = .reversal then
      12 + (match setup.pattern with
            | some p => p.strength * 8
            | none => 0)
    else if setup.type = .breakout ∧ setup.isTrue then 15
    else if setup.type = .retest then
      12 + (match setup.pattern with
            | some _ => (5 : ℚ)
            | none => 0)
    else if setup.type = .false_breakout ∨ setup.type = .false_breakdown then 10
    else 5)
  min score 30

/-- `calculateCandleScore(candles, side)`. -/
def calculateCandleScore (candles : List Candle) (side : Side) : ℚ :=
  if candles.length < 2 then 12
  else
    let currentCandle := candleAt candles (candles.length - 1)
    let strength := getCandleStrength currentCandle
    let score : ℚ := 12 +
      (if side = .LONG ∧ strength.isBullish then
        strength.strength * 10 +
        (if 7 / 10 < strength.closeLocation then 3 else 0) +
        (match strength.rejection with
         | some (.downside, s) => s * 4
         | _ => 0)
      else if side = .SHORT ∧ strength.isBearish then
        strength.strength * 10 +
        (if strength.closeLocation < 3 / 10 then 3 else 0) +
        (match strength.rejection with
         | some (.upside, s) => s * 4
         | _ => 0)
      else -6)
    max 0 (min score 25)

/-- `calculateVolumeScore(candles, setup)`. -/
def calculateVolumeScore (candles : List Candle) (setup : Setup) : ℚ :=
  if candles.length < 20 then 7
  else
    let currentCandle := candleAt candles (candles.length - 1)
    let avgVolume := calculateAverageVolume candles 20
    let volumeRatio := currentCandle.volume / avgVolume
    let score : ℚ := 5 +
      (if 2 < volumeRatio then 10
       else if 3 / 2 < volumeRatio then 7
       else if 6 / 5 < volumeRatio then 5
       else if volumeRatio < 4 / 5 then -3
       else 0) +
      (if setup.volumeSpike then 3 else 0)
    max 0 (min score 15)

/-- `calculateDivergenceScore(divergence, side, maxBonus)`. -/
def calculateDivergenceScore (divergence : Option Divergence) (side : Side)
    (maxBonus : ℚ) : ℚ :=
  match divergence with
  | none => 0
  | some d =>
    if side = .LONG ∧ d.bullish then maxBonus
    else if side = .SHORT ∧ d.bearish then maxBonus
    else 0

/-- Score breakdown, as returned by `calculateScore`. -/
structure ScoreBreakdown where
  htf : ℚ
  setup : ℚ
  candle : ℚ
  volume : ℚ
  divergence : ℚ
deriving DecidableEq, Repr

/-- Result of `calculateScore`. -/
structure ScoreResult where
  score : ℤ
  breakdown : ScoreBreakdown
  maxScore : ℤ
deriving DecidableEq, Repr

/-- `calculateScore(setup, htfAlignment, candles, divergence, config)`;
`Math.round` is `round` (half towards positive infinity). -/
def calculateScore (setup : Setup) (htfAlignment : Option HTFAlign)
    (candles : List Candle) (divergence : Option Divergence)
    (cfg : EngineConfig) : ScoreResult :=
  let rsiBonus : ℚ := (cfg.rsiDivergenceBonus : ℚ)
  let htfScore := calculateHTFScore setup.side htfAlignment
  let setupScore := calculateSetupScore setup
  let candleScore := calculateCandleScore candles setup.side
  let volumeScore := calculateVolumeScore candles setup
  let divergenceScore := calculateDivergenceScore divergence setup.side rsiBonus
  let total := htfScore + setupScore + candleScore + volumeScore + divergenceScore
  { score := round total
  , breakdown :=
      { htf := htfScore, setup := setupScore, candle := candleScore
      , volume := volumeScore, divergence := divergenceScore }
  , maxScore := 100 + cfg.rsiDivergenceBonus }

/-- Levels record returned by `calculateLevels`; `slZone` and `tpZones`
keep the `{center, type}` / `{center, type, distancePercent}` projections
the source builds. -/
structure Levels where
  entry : ℚ
  stopLoss : ℚ
  takeProfit1 : ℚ
  takeProfit2 : ℚ
  riskReward1 : ℚ
  riskReward2 : ℚ
  slZone : Option (ℚ × ZType)
  tpZones : List (ℚ × ZType × ℚ)
deriving DecidableEq, Repr

/-- `zoneSLBuffer || parseFloat(process.env.ZONE_SL_BUFFER_PCT) || 0.2`
with the environment variable unset. -/
def resolveSLBuffer (zoneSLBuffer : ℚ) : ℚ :=
  if zoneSLBuffer = 0 then 1 / 5 else zoneSLBuffer

/-- Stop-loss selection for a LONG setup, before display rounding: the
zone-based value, the setup-zone fallback, or the `entry * 0.99` last
resort.  Also returns the chosen `slZone`. -/
def longStopLossRaw (setup : Setup) (slBuffer : ℚ) : Option Zone × ℚ :=
  match findStopLossZone setup.price setup.zones.support .LONG with
  | some z => (some z, z.lower - z.lower * (slBuffer / 100))
  | none =>
    match setup.zone with
    | some z => (none, z.lower - z.lower * (slBuffer / 100))
    | none => (none, setup.price * (99 / 100))

/-- Stop-loss selection for a SHORT setup, before display rounding. -/
def shortStopLossRaw (setup : Setup) (slBuffer : ℚ) : Option Zone × ℚ :=
  match findStopLossZone setup.price setup.zones.resistance .SHORT with
  | some z => (some z, z.upper + z.upper * (slBuffer / 100))
  | none =>
    match setup.zone with
    | some z => (none, z.upper + z.upper * (slBuffer / 100))
    | none => (none, setup.price * (101 / 100))

/-- Take-profit selection for a LONG setup, before display rounding:
zone centers when two or more TP zones exist, `3R` fallback for the second
target with exactly one, `1.5R`/`3R` with none. -/
def longTPsRaw (setup : Setup) (stopLoss : ℚ) : ℚ × ℚ × List OppZone :=
  let tpZones := findNextOpposingZones setup.price setup.zones.resistance .LONG 3
  match tpZones with
  | z1 :: z2 :: _ => (z1.z.center, z2.z.center, tpZones)
  | [z1] => (z1.z.center, setup.price + (setup.price - stopLoss) * 3, tpZones)
  | [] =>
    ( setup.price + (setup.price - stopLoss) * (3 / 2)
    , setup.price + (setup.price - stopLoss) * 3, tpZones)

/-- Take-profit selection for a SHORT setup, before display rounding. -/
def shortTPsRaw (setup : Setup) (stopLoss : ℚ) : ℚ × ℚ × List OppZone :=
  let tpZones := findNextOpposingZones setup.price setup.zones.support .SHORT 3
  match tpZones with
  | z1 :: z2 :: _ => (z1.z.center, z2.z.center, tpZones)
  | [z1] => (z1.z.center, setup.price - (stopLoss - setup.price) * 3, tpZones)
  | [] =>
    ( setup.price - (stopLoss - setup.price) * (3 / 2)
    , setup.price - (stopLoss - setup.price) * 3, tpZones)

/-- Final assembly of the levels record: risk/reward ratios and the
`toFixed(8)` / `toFixed(2)` display rounding. -/
def mkLevels (entry stopLoss tp1 tp2 : ℚ) (slZone : Option Zone)
    (tpZones : List OppZone) : Levels :=
  let risk := |entry - stopLoss|
  let reward1 := |tp1 - entry|
  let rr1 := reward1 / risk
  let reward2 := |tp2 - entry|
  let rr2 := reward2 / risk
  { entry := jsToFixed 8 entry
  , stopLoss := jsToFixed 8 stopLoss
  , takeProfit1 := jsToFixed 8 tp1
  , takeProfit2 := jsToFixed 8 tp2
  , riskReward1 := jsToFixed 2 rr1
  , riskReward2 := jsToFixed 2 rr2
  , slZone := slZone.map fun z => (z.center, z.ztype)
  , tpZones := tpZones.map fun z => (z.z.center, z.z.ztype, z.distancePercent) }

/-- `calculateLevels(setup, zoneSLBuffer)`. -/
def calculateLevels (setup : Setup) (zoneSLBuffer : ℚ) : Levels :=
  let entry := setup.price
  let slBuffer := resolveSLBuffer zoneSLBuffer
  match setup.side with
  | .LONG =>
    let sl := longStopLossRaw setup slBuffer
    let tps := longTPsRaw setup sl.2
    mkLevels entry sl.2 tps.1 tps.2.1 sl.1 tps.2.2
  | .SHORT =>
    let sl := shortStopLossRaw setup slBuffer
    let tps := shortTPsRaw setup sl.2
    mkLevels entry sl.2 tps.1 tps.2.1 sl.1 tps.2.2

/-! ## Anti-chase (`src/pa/antiChase.js`) -/

/-- `calculateATR(candles, period)` (anti-chase variant: simple average of
the last `period` true ranges). -/
def calculateATR (candles : List Candle) (period : ℕ) : ℚ :=
  if candles.length < period + 1 then 0
  else
    let trueRanges := (List.range (candles.length - 1)).map fun i =>
      let c := candleAt candles (i + 1)
      let prev := candleAt candles i
      max (c.high - c.low) (max |c.high - prev.close| |c.low - prev.close|)
    sumQ (takeLast period trueRanges) / period

/-- `calculatePercentMove(currentPrice, referencePrice)`. -/
def calculatePercentMove (currentPrice referencePrice : ℚ) : ℚ :=
  |(currentPrice - referencePrice) / referencePrice * 100|

/-- Result of `analyzeCandleBody(candle)`. -/
structure BodyAnalysis where
  bodyToRange : ℚ
  wickRatio : ℚ
  hasLargeBody : Bool
deriving DecidableEq, Repr

/-- `analyzeCandleBody(candle)`. -/
def analyzeCandleBody (candle : Candle) : BodyAnalysis :=
  let body := |candle.close - candle.open_|
  let range := candle.high - candle.low
  if range = 0 then { bodyToRange := 0, wickRatio := 0, hasLargeBody := false }
  else
    let bodyToRange := body / range
    let upperWick := candle.high - max candle.open_ candle.close
    let lowerWick := min candle.open_ candle.close - candle.low
    { bodyToRange := bodyToRange
    , wickRatio := (upperWick + lowerWick) / range
    , hasLargeBody := decide (7 / 10 < bodyToRange) }

/-- Result of `checkVolumeSpike(candles, threshold)`. -/
structure VolumeAnalysis where
  isSpike : Bool
  ratio : ℚ
  isClimax : Bool
deriving DecidableEq, Repr

/-- `checkVolumeSpike(candles, threshold)`: ratio of the current volume to
the average of the 19 candles before it; climax when the ratio is at least
2.5 and the current volume strictly exceeds the recent maximum. -/
def checkVolumeSpike (candles : List Candle) (threshold : ℚ) : VolumeAnalysis :=
  if candles.length < 20 then { isSpike := false, ratio := 1, isClimax := false }
  else
    let currentVolume := (candleAt candles (candles.length - 1)).volume
    let recentCandles := (takeLast 20 candles).dropLast
    let avgVolume := sumQ (recentCandles.map Candle.volume) / recentCandles.length
    let maxRecentVolume := listMaxQ (recentCandles.map Candle.volume)
    let ratio := currentVolume / avgVolume
    { isSpike := decide (threshold ≤ ratio)
    , ratio := ratio
    , isClimax := decide (5 / 2 ≤ ratio ∧ maxRecentVolume < currentVolume) }

/-- Result of `detectMomentumChange(candles)`. -/
structure MomentumAnalysis where
  hasSlowdown : Bool
  hasAcceleration : Bool
  consecutiveBullish : ℕ
  consecutiveBearish : ℕ
deriving DecidableEq, Repr

/-- `detectMomentumChange(candles)`: the backwards loop counts the run of
same-colour candles ending at the most recent candle (the opposite counter
stays 0); body sizes of the last three candles decide
slowdown/acceleration. -/
def detectMomentumChange (candles : List Candle) : MomentumAnalysis :=
  if candles.length < 3 then
    { hasSlowdown := false, hasAcceleration := false
    , consecutiveBullish := 0, consecutiveBearish := 0 }
  else
    let recentCandles := takeLast 5 candles
    let rev := recentCandles.reverse
    let isBull := fun (c : Candle) => decide (c.open_ < c.close)
    let isBear := fun (c : Candle) => decide (c.close < c.open_)
    let consecutiveBullish :=
      match rev with
      | c :: _ => if isBull c then (rev.takeWhile isBull).length else 0
      | [] => 0
    let consecutiveBearish :=
      match rev with
      | c :: _ => if isBear c then (rev.takeWhile isBear).length else 0
      | [] => 0
    let lastThree := takeLast 3 recentCandles
    let body := fun (c : Candle) => |c.close - c.open_|
    let b0 := body (candleAt lastThree 0)
    let b1 := body (candleAt lastThree 1)
    let b2 := body (candleAt lastThree 2)
    { hasSlowdown := decide (b2 < b1 ∧ b1 < b0)
    , hasAcceleration := decide (b1 < b2 ∧ b0 < b1)
    , consecutiveBullish := consecutiveBullish
    , consecutiveBearish := consecutiveBearish }

/-- The `type` field of `detectMicroStructure`. -/
inductive MSType where
  | bullish
  | bearish
  | bullish_bos
  | bearish_bos
deriving DecidableEq, Repr

/-- Result of `detectMicroStructure(candles)`. -/
structure StructureAnalysis where
  hasCHoCH : Bool
  hasBOS : Bool
  type : Option MSType
deriving DecidableEq, Repr

/-- `detectMicroStructure(candles)`: swing of the previous 9 candles versus
the current close, with a 5-candle older window for CHoCH context (the
later bearish assignment overwrites the bullish one, kept here by checking
the bearish condition first). -/
def detectMicroStructure (candles : List Candle) : StructureAnalysis :=
  if candles.length < 10 then { hasCHoCH := false, hasBOS := false, type := none }
  else
    let recentCandles := takeLast 10 candles
    let currentCandle := candleAt candles (candles.length - 1)
    let swingCandles := recentCandles.dropLast
    let swingHigh := listMaxQ (swingCandles.map Candle.high)
    let swingLow := listMinQ (swingCandles.map Candle.low)
    let bullishBOS := decide (swingHigh < currentCandle.close)
    let bearishBOS := decide (currentCandle.close < swingLow)
    let olderCandles := (takeLast 15 candles).take 5
    let olderHigh := listMaxQ (olderCandles.map Candle.high)
    let olderLow := listMinQ (olderCandles.map Candle.low)
    let bullCh := 15 ≤ candles.length ∧ swingLow < olderLow ∧ bullishBOS = true
    let bearCh := 15 ≤ candles.length ∧ olderHigh < swingHigh ∧ bearishBOS = true
    let hasCHoCH : Bool := decide bullCh || decide bearCh
    { hasCHoCH := hasCHoCH
    , hasBOS := bullishBOS || bearishBOS
    , type :=
        if hasCHoCH then
          if decide bearCh then some .bearish else some .bullish
        else if bullishBOS then some .bullish_bos
        else if bearishBOS then some .bearish_bos
        else none }

/-- Anti-chase decision tag. -/
inductive ChaseDecision where
  | CHASE_OK
  | CHASE_NO
  | REVERSAL_WATCH
deriving DecidableEq, Repr

/-- Metrics object built by `evaluateChaseRisk`. -/
structure ChaseMetrics where
  atr : ℚ
  pctMove : ℚ
  atrMove : ℚ
  bodyAnalysis : BodyAnalysis
  volumeAnalysis : VolumeAnalysis
  momentumAnalysis : MomentumAnalysis
  structureAnalysis : StructureAnalysis
  candleStrength : CandleStrengthR
  hasMovedAway : Bool
deriving DecidableEq, Repr

/-- Result of `evaluateChaseRisk`. -/
structure ChaseResult where
  decision : ChaseDecision
  reason : String
  metrics : ChaseMetrics
  score : ℚ
deriving DecidableEq, Repr

/-- Render a rational with one decimal digit for the reason text
(abstraction of `x.toFixed(1)`). -/
def ratToFixed1Str (x : ℚ) : String :=
  toString (round (x * 10) : ℤ)

/-- The side-dependent consecutive-candle count used by the anti-chase
scoring. -/
def consecutiveFor (side : Side) (metrics : ChaseMetrics) : ℕ :=
  match side with
  | .LONG => metrics.momentumAnalysis.consecutiveBullish
  | .SHORT => metrics.momentumAnalysis.consecutiveBearish

/-- The chase-risk score accumulation of `evaluateChaseRisk`
(factors 1 through 6), over the metrics record whose fields are exactly the
source's local variables. -/
def chaseScore (side : Side) (maxATRMultiple maxPctMove : ℚ)
    (metrics : ChaseMetrics) : ℚ :=
  let extensionScore : ℚ :=
    if maxATRMultiple < metrics.atrMove ∨ maxPctMove < metrics.pctMove then 40
    else metrics.atrMove / maxATRMultiple * 20 + metrics.pctMove / maxPctMove * 20
  let consecutiveCount := consecutiveFor side metrics
  let consecutiveScore : ℚ :=
    if 5 ≤ consecutiveCount then 20
    else if 3 ≤ consecutiveCount then 15
    else if 2 ≤ consecutiveCount then 10
    else 0
  let bodyScore : ℚ :=
    if metrics.bodyAnalysis.hasLargeBody ∧
        7 / 10 < metrics.candleStrength.strength then 15
    else if 1 / 2 < metrics.bodyAnalysis.bodyToRange then 8
    else 0
  let volumeScore : ℚ :=
    if metrics.volumeAnalysis.isClimax then -15
    else if metrics.volumeAnalysis.isSpike ∧
        5 / 2 < metrics.volumeAnalysis.ratio then 10
    else 0
  let momentumScore : ℚ :=
    if metrics.momentumAnalysis.hasSlowdown then -20
    else if metrics.momentumAnalysis.hasAcceleration then 10
    else 0
  let structureScore : ℚ :=
    if metrics.structureAnalysis.hasCHoCH ∧
        ((side = .LONG ∧ metrics.structureAnalysis.type = some .bullish) ∨
          (side = .SHORT ∧ metrics.structureAnalysis.type = some .bearish)) then -25
    else 0
  extensionScore + consecutiveScore + bodyScore + volumeScore +
    momentumScore + structureScore

/-- The decision tail of `evaluateChaseRisk` (everything after the metrics
object is assembled). -/
def chaseDecide (side : Side) (maxATRMultiple maxPctMove : ℚ)
    (metrics : ChaseMetrics) : ChaseResult :=
  if ¬metrics.hasMovedAway ∨ (metrics.atrMove < 1 / 2 ∧ metrics.pctMove < 1 / 2) then
    { decision := .CHASE_OK, reason := "Price at or near ideal entry"
    , metrics := metrics, score := 0 }
  else
    let consecutiveCount := consecutiveFor side metrics
    let score := chaseScore side maxATRMultiple maxPctMove metrics
    if 50 ≤ score then
      { decision := .CHASE_NO
      , reason :=
          ("Too extended - likely trap or late entry. " ++
            (if 5 ≤ consecutiveCount then "Many consecutive candles. " else "") ++
            (if maxATRMultiple < metrics.atrMove then
              "Moved " ++ ratToFixed1Str metrics.atrMove ++ "x ATR. " else "") ++
            (if metrics.bodyAnalysis.hasLargeBody then "Large body candle. "
             else "")).trim
      , metrics := metrics, score := score }
    else if 25 ≤ score ∧ score < 50 then
      { decision := .CHASE_OK
      , reason :=
          ("Acceptable chase - prefer pullback/limit entry. " ++
            (if metrics.volumeAnalysis.isClimax then "Volume climax detected. "
             else "") ++
            (if metrics.momentumAnalysis.hasSlowdown then "Momentum slowing. "
             else "")).trim
      , metrics := metrics, score := score }
    else
      if metrics.volumeAnalysis.isClimax ∨
          (4 ≤ consecutiveCount ∧ metrics.momentumAnalysis.hasSlowdown) ∨
          (metrics.structureAnalysis.hasCHoCH ∧
            ((side = .LONG ∧ metrics.structureAnalysis.type = some .bearish) ∨
              (side = .SHORT ∧ metrics.structureAnalysis.type = some .bullish))) then
        { decision := .REVERSAL_WATCH
        , reason :=
            ("Trend exhaustion signals - watch for reversal. " ++
              (if metrics.volumeAnalysis.isClimax then "Volume climax. " else "") ++
              (if metrics.momentumAnalysis.hasSlowdown then "Momentum slowing. "
               else "") ++
              (if metrics.structureAnalysis.hasCHoCH then "CHoCH detected. "
               else "")).trim
        , metrics := metrics, score := score }
      else
        { decision := .CHASE_OK, reason := "Good entry conditions"
        , metrics := metrics, score := score }

/-- The metric computations of `evaluateChaseRisk` (everything before the
decision logic).  `setup.price || setup.entry || currentPrice` collapses to
the price/current-price alternative because no source setup object carries
an `entry` field. -/
def evalChaseMetrics (candles : List Candle) (setup : Setup) : ChaseMetrics :=
  let currentCandle := candleAt candles (candles.length - 1)
  let currentPrice := currentCandle.close
  let entryPrice := if setup.price = 0 then currentPrice else setup.price
  let side := setup.side
  let atr := calculateATR candles 14
  let pctMove := calculatePercentMove currentPrice entryPrice
  let atrMove := |currentPrice - entryPrice| / jsOrQ atr 1
  let bodyAnalysis := analyzeCandleBody currentCandle
  let volumeAnalysis := checkVolumeSpike candles 2
  let momentumAnalysis := detectMomentumChange candles
  let structureAnalysis := detectMicroStructure candles
  let candleStrength := getCandleStrength currentCandle
  let hasMovedAway : Bool :=
    match side with
    | .LONG => decide (entryPrice < currentPrice)
    | .SHORT => decide (currentPrice < entryPrice)
  { atr := atr, pctMove := pctMove, atrMove := atrMove
  , bodyAnalysis := bodyAnalysis, volumeAnalysis := volumeAnalysis
  , momentumAnalysis := momentumAnalysis
  , structureAnalysis := structureAnalysis
  , candleStrength := candleStrength, hasMovedAway := hasMovedAway }

/-- `evaluateChaseRisk(candles, setup, config)`: compute the metrics, then
decide. -/
def evaluateChaseRisk (candles : List Candle) (setup : Setup)
    (cfg : EngineConfig) : ChaseResult :=
  chaseDecide setup.side (jsOrQ cfg.antiChaseMaxATR 2)
    (jsOrQ cfg.antiChaseMaxPct 3) (evalChaseMetrics candles setup)

/-! ## Signal engine (`src/app/engine.js`)

The engine's collaborators that live outside the sources
(`structure.js`, `indicators/rsi.js`, the cooldown/signal stores, the
telegram sink) are modelled as per-event oracle inputs and explicit state:
the HTF alignment and divergence results arrive with the event, the
cooldown store is the list of armed keys, and the sink is a boolean
outcome.  The intrabar SETUP pipeline (`analyzeForSetup`) is not modelled;
it emits SETUP-stage signals only. -/

/-- Signal stage tag. -/
inductive Stage where
  | SETUP
  | ENTRY
deriving DecidableEq, Repr

/-- Cooldown key `(symbol, timeframe, side, zoneKey)`; the zone key is
`none` for the javascript `'none'` placeholder. -/
def CoolKey : Type := String × String × Side × Option (ZType × ℤ)

instance : DecidableEq CoolKey :=
  inferInstanceAs (DecidableEq (String × String × Side × Option (ZType × ℤ)))

instance : Repr CoolKey :=
  inferInstanceAs (Repr (String × String × Side × Option (ZType × ℤ)))

/-- An emitted signal (the fields the ENTRY pipeline builds; the
pass-through `htfBias` object of the external `structure.js` is represented
by the alignment record). -/
structure Signal where
  stage : Stage
  symbol : String
  timeframe : String
  side : Side
  score : ℤ
  scoreBreakdown : ScoreBreakdown
  setup : Setup
  htfAlignment : HTFAlign
  divergence : Option Divergence
  volumeRatio : ℚ
  levels : Levels
  chaseEval : ChaseResult
  timestamp : ℤ
  zone_key : Option (ZType × ℤ)
deriving Repr

/-- Effects of one `analyzeForEntry` call: the signal handed to
`sendSignal` (if any), the signal persisted via `saveSignal`, the cooldown
key armed via `addCooldown`, the returned value, and the resulting
cooldown-store state. -/
structure EntryOutcome where
  sent : Option Signal
  persisted : Option Signal
  armed : Option CoolKey
  result : Option Signal
  cooldowns : List CoolKey
deriving Repr

/-- `analyzeForEntry(symbol, timeframe)`: the gate cascade of
`src/app/engine.js` lines 69-205. -/
def analyzeForEntry (cfg : EngineConfig) (cooldowns : List CoolKey)
    (symbol timeframe : String) (candles : List Candle)
    (htfAlignment : HTFAlign) (divergence : Option Divergence)
    (sinkOk : Bool) : EntryOutcome :=
  let skip : EntryOutcome :=
    { sent := none, persisted := none, armed := none, result := none
    , cooldowns := cooldowns }
  if ¬cfg.entryStageEnabled then skip
  else if candles.length < 100 then skip
  else
    match detectSetup candles cfg with
    | none => skip
    | some setup =>
      if ¬htfAlignment.aligned then skip
      else
        let currentCandle := candleAt candles (candles.length - 1)
        let recentCandles := takeLast 20 candles
        let avgVolume :=
          sumQ (recentCandles.map Candle.volume) / recentCandles.length
        let volumeRatio := currentCandle.volume / avgVolume
        if cfg.requireVolumeConfirmation ∧
            volumeRatio < cfg.volumeSpikeThreshold then skip
        else
          let scoreResult :=
            calculateScore setup (some htfAlignment) candles divergence cfg
          if scoreResult.score < cfg.entryScoreThreshold then skip
          else
            let levels := calculateLevels setup cfg.zoneSLBuffer
            if levels.riskReward1 < cfg.minRR then skip
            else
              let chaseEval := evaluateChaseRisk candles setup cfg
              if chaseEval.decision = .CHASE_NO then skip
              else
                let zoneKey := setup.zone.map Zone.zkey
                let key : CoolKey := (symbol, timeframe, setup.side, zoneKey)
                if key ∈ cooldowns then skip
                else
                  let signal : Signal :=
                    { stage := .ENTRY, symbol := symbol, timeframe := timeframe
                    , side := setup.side, score := scoreResult.score
                    , scoreBreakdown := scoreResult.breakdown, setup := setup
                    , htfAlignment := htfAlignment, divergence := divergence
                    , volumeRatio := volumeRatio, levels := levels
                    , chaseEval := chaseEval
                    , timestamp := currentCandle.closeTime
                    , zone_key := zoneKey }
                  if sinkOk then
                    { sent := some signal, persisted := some signal
                    , armed := some key, result := some signal
                    , cooldowns := key :: cooldowns }
                  else
                    { sent := some signal, persisted := none, armed := none
                    , result := none, cooldowns := cooldowns }

/-- A candle-close event together with the oracle outcomes of the external
collaborators for this evaluation. -/
structure EngineEvent where
  symbol : String
  timeframe : String
  candle : Candle
  htfAlignment : HTFAlign
  divergence : Option Divergence
  sinkOk : Bool
deriving Repr

/-- Whole-system state threaded through event processing. -/
structure SysState where
  cache : CacheState
  cooldowns : List CoolKey
  persisted : List Signal
  sentLog : List Signal
deriving Repr

/-- Ingestion plus `onCandleClosed`: the candle is applied to the store,
then `analyzeForEntry` runs when the timeframe is an entry timeframe
(analysis is synchronous with the triggering update, spec section 5). -/
def processEvent (cfg : EngineConfig) (st : SysState) (ev : EngineEvent) :
    SysState :=
  let cache := updateCandle st.cache ev.symbol ev.timeframe ev.candle
  if ev.timeframe ∈ cfg.entryTimeframes then
    let out := analyzeForEntry cfg st.cooldowns ev.symbol ev.timeframe
      (cacheGet cache ev.symbol ev.timeframe) ev.htfAlignment ev.divergence
      ev.sinkOk
    { cache := cache
    , cooldowns := out.cooldowns
    , persisted := st.persisted ++ out.persisted.toList
    , sentLog := st.sentLog ++ out.sent.toList }
  else
    { st with cache := cache }

/-- Process a sequence of candle events. -/
def runEngine (cfg : EngineConfig) (st : SysState) (events : List EngineEvent) :
    SysState :=
  events.foldl (processEvent cfg) st

/-- Engine-constructor resolution of `MIN_ZONES_REQUIRED`
(`parseInt(process.env.MIN_ZONES_REQUIRED) || 2`): an unset variable
parses to `NaN` (modelled as `none`) and both `NaN` and `0` are falsy. -/
def engineMinZonesRequired (envValue : Option ℤ) : ℤ :=
  match envValue with
  | none => 2
  | some n => jsOrZ n 2

/-! ## Concrete inputs used by the evaluation theorems -/

/-- A closed candle with the given OHLC and unit volume. -/
def candleOHLC (o h l c : ℚ) : Candle :=
  { openTime := 0, closeTime := 0, open_ := o, high := h, low := l, close := c
  , volume := 1, isClosed := true }

/-- A flat closed candle at the given open time. -/
def candleAtTime (t : ℤ) : Candle :=
  { openTime := t, closeTime := t + 1, open_ := 1, high := 1, low := 1
  , close := 1, volume := 1, isClosed := true }

/-- A flat candle that is still forming (`isClosed = false`). -/
def notClosedCandle : Candle :=
  { openTime := 5, closeTime := 6, open_ := 1, high := 1, low := 1, close := 1
  , volume := 1, isClosed := false }

/-- Neutral first candle of the pattern-priority example. -/
def c8first : Candle := candleOHLC (99 / 10) (995 / 100) (985 / 100) (99 / 10)

/-- Small bearish second candle of the pattern-priority example. -/
def c8second : Candle := candleOHLC (993 / 100) 10 (98 / 10) (987 / 100)

/-- Final candle of the pattern-priority example: simultaneously a hammer
pin bar and the bullish half of an engulfing pair. -/
def c8third : Candle := candleOHLC (985 / 100) (997 / 100) 9 (995 / 100)

/-- Support zone at 99 (lower bound 98.8). -/
def zoneSupport99 : Zone :=
  { center := 99, upper := 995 / 10, lower := 988 / 10, ztype := .support
  , timestamp := 0, touches := 0, zkey := (.support, 9900) }

/-- Resistance zone at 110. -/
def zoneResistance110 : Zone :=
  { center := 110, upper := 1105 / 10, lower := 1095 / 10, ztype := .resistance
  , timestamp := 0, touches := 0, zkey := (.resistance, 11000) }

/-- Resistance zone at 105. -/
def zoneResistance105 : Zone :=
  { center := 105, upper := 1055 / 10, lower := 1045 / 10, ztype := .resistance
  , timestamp := 0, touches := 0, zkey := (.resistance, 10500) }

/-- LONG setup at entry 100 with one support zone below and a single
distant resistance zone above (the single-take-profit-zone regime). -/
def setupOneTP : Setup :=
  { type := .reversal, side := .LONG, pattern := none
  , zone := some zoneSupport99, price := 100, name := "Bullish Reversal at Support"
  , volumeSpike := false, volumeRatio := none, isTrue := false
  , zones := { support := [zoneSupport99], resistance := [zoneResistance110] } }

/-- LONG setup at entry 100 with two resistance zones above (the
two-take-profit-zone regime). -/
def setupTwoTP : Setup :=
  { type := .reversal, side := .LONG, pattern := none
  , zone := some zoneSupport99, price := 100, name := "Bullish Reversal at Support"
  , volumeSpike := false, volumeRatio := none, isTrue := false
  , zones := { support := [zoneSupport99]
             , resistance := [zoneResistance105, zoneResistance110] } }

/-- Engine configuration with the documented defaults and
`MIN_ZONES_REQUIRED=0`. -/
def cfgZeroZones : EngineConfig :=
  { pivotWindow := 5, zoneLookback := 100, zoneTolerance := 1 / 2
  , volumeSpikeThreshold := 3 / 2, minScore := 70, setupScoreThreshold := 50
  , entryScoreThreshold := 70, cooldownMinutes := 60, zoneSLBuffer := 1 / 5
  , minZonesRequired := 0, minRR := 3 / 2, antiChaseMaxATR := 2
  , antiChaseMaxPct := 3, rsiDivergenceBonus := 10
  , requireVolumeConfirmation := true, setupStageEnabled := true
  , entryStageEnabled := true, entryTimeframes := ["1h"]
  , htfTimeframes := ["4h", "1d"] }

/-- First match over a list of detector results (the priority-chain
combinator of spec sections 4.5 and the design notes). -/
def firstSome (l : List (Option PatternR)) : Option PatternR :=
  l.findSome? id

/-- Well-formed zone: positive band around a positive center. -/
def ZoneWF (z : Zone) : Prop := 0 < z.lower ∧ z.lower < z.center ∧ z.center < z.upper

instance : DecidablePred ZoneWF := fun z =>
  inferInstanceAs (Decidable (0 < z.lower ∧ z.lower < z.center ∧ z.center < z.upper))

/-- One operation only feeds closed candles into the closed-candle store
(forming updates are unrestricted). -/
def closedOnlyOp : CacheOp → Bool
  | .opInit _ _ initial => initial.all (fun c => c.isClosed)
  | .opUpdate _ _ c => c.isClosed
  | .opForming _ _ _ => true

/-- Every closed list in the store holds only closed candles. -/
def allClosedB (st : CacheState) : Bool :=
  st.cache.all (fun e => e.2.all (fun c => c.isClosed))

/-! ## Theorems -/

theorem alGet_alSet_self {V : Type} (k : String × String) (v : V)
    (m : List ((String × String) × V)) : alGet k (alSet k v m) = some v := by
  induction m with
  | nil => simp [alSet, alGet, List.find?]
  | cons e rest ih =>
    by_cases h : e.1 = k
    · simp [alSet, h, alGet, List.find?]
    · simpa [alSet, h, alGet, List.find?] using ih

/-- C10: calling `updateCandle` for a pair that has never been initialized
returns without modifying any state. -/
theorem updateCandle_uninitialized_noop (st : CacheState) (sym tf : String)
    (c : Candle) (h : alGet (sym, tf) st.cache = none) :
    updateCandle st sym tf c = st := by
  unfold updateCandle
  rw [h]

theorem updateCandle_uninitialized_noop_witness :
    alGet ("BTCUSDT", "1h") emptyCache.cache = none ∧
      updateCandle emptyCache "BTCUSDT" "1h" defaultCandle = emptyCache :=
  ⟨rfl, updateCandle_uninitialized_noop emptyCache "BTCUSDT" "1h" defaultCandle rfl⟩

/-- C6: when the notification sink reports failure, `analyzeForEntry`
neither persists the signal nor arms the cooldown, and the cooldown store
is returned unchanged, so a future retry remains possible. -/
theorem sink_failure_no_persist_no_cooldown (cfg : EngineConfig)
    (cooldowns : List CoolKey) (symbol timeframe : String)
    (candles : List Candle) (htfAlignment : HTFAlign)
    (divergence : Option Divergence) :
    (analyzeForEntry cfg cooldowns symbol timeframe candles htfAlignment
        divergence false).persisted = none ∧
      (analyzeForEntry cfg cooldowns symbol timeframe candles htfAlignment
        divergence false).armed = none ∧
      (analyzeForEntry cfg cooldowns symbol timeframe candles htfAlignment
        divergence false).cooldowns = cooldowns := by
  simp only [analyzeForEntry, Bool.false_eq_true, if_false]
  repeat' split
  all_goals exact ⟨rfl, rfl, rfl⟩

theorem analyzeForEntry_sent_props (cfg : EngineConfig)
    (cooldowns : List CoolKey) (symbol timeframe : String)
    (candles : List Candle) (htfAlignment : HTFAlign)
    (divergence : Option Divergence) (sinkOk : Bool) (s : Signal)
    (h : (analyzeForEntry cfg cooldowns symbol timeframe candles htfAlignment
        divergence sinkOk).sent = some s) :
    s.stage = .ENTRY ∧ cfg.minRR ≤ s.levels.riskReward1 := by
  simp only [analyzeForEntry] at h
  repeat' split at h
  all_goals simp_all
  all_goals
    subst h
    simp_all [not_lt]

theorem runEngine_sentLog_all (cfg : EngineConfig) (events : List EngineEvent) :
    ∀ st : SysState,
      st.sentLog.all
        (fun s => decide (s.stage = Stage.ENTRY → cfg.minRR ≤ s.levels.riskReward1)) =
        true →
      ((runEngine cfg st events).sentLog).all
        (fun s => decide (s.stage = Stage.ENTRY → cfg.minRR ≤ s.levels.riskReward1)) =
        true := by
  induction events with
  | nil => exact fun st h => h
  | cons ev rest ih =>
    intro st h
    show ((runEngine cfg (processEvent cfg st ev) rest).sentLog).all _ = true
    apply ih
    unfold processEvent
    split
    · cases hs : (analyzeForEntry cfg st.cooldowns ev.symbol ev.timeframe
        (cacheGet (updateCandle st.cache ev.symbol ev.timeframe ev.candle)
          ev.symbol ev.timeframe) ev.htfAlignment ev.divergence ev.sinkOk).sent with
      | none => simpa [hs] using h
      | some s =>
        have hp := analyzeForEntry_sent_props cfg st.cooldowns ev.symbol
          ev.timeframe (cacheGet (updateCandle st.cache ev.symbol ev.timeframe
            ev.candle) ev.symbol ev.timeframe) ev.htfAlignment ev.divergence
          ev.sinkOk s hs
        simp only [hs, Option.toList_some, List.all_append, Bool.and_eq_true]
        exact ⟨h, by simp [hp.1, hp.2]⟩
    · exact h

/-- C2: over any sequence of candle events processed by the engine, every
signal handed to the notification sink at ENTRY stage has
`riskReward1 ≥ minRR`. -/
theorem engine_rr_gate (cfg : EngineConfig) (cache0 : CacheState)
    (cool0 : List CoolKey) (pers0 : List Signal) (events : List EngineEvent) :
    ((runEngine cfg
        { cache := cache0, cooldowns := cool0, persisted := pers0
        , sentLog := [] } events).sentLog).all
      (fun s => decide (s.stage = Stage.ENTRY → cfg.minRR ≤ s.levels.riskReward1)) =
      true :=
  runEngine_sentLog_all cfg events _ rfl

/-- C3: setting `MIN_ZONES_REQUIRED` to 0 does NOT disable the zone-count
gate: the engine constructor's `parseInt(...) || 2` and `detectSetup`'s
`config.minZonesRequired || 2` both turn 0 back into the default 2, so
`detectSetup` with `minZonesRequired = 0` behaves exactly like 2 and still
returns null for lack of zones (here: a three-candle window producing zero
zones). -/
theorem minZones_zero_gate_not_disabled :
    (∀ (candles : List Candle) (cfg : EngineConfig),
        detectSetup candles { cfg with minZonesRequired := 0 } =
          detectSetup candles { cfg with minZonesRequired := 2 }) ∧
      engineMinZonesRequired (some 0) = 2 ∧
      detectSetup [c8first, c8second, c8third] cfgZeroZones = none := by
  refine ⟨fun candles cfg => rfl, rfl, by decide⟩

/-- C8 counterexample: on a candle triple that is simultaneously a hammer
pin bar and a bullish engulfing (and nothing of higher priority), the
source returns the pin bar, while the priority order stated by the claim
(engulfing before pin bar) would return the engulfing: the claimed order is
not the code's order. -/
theorem detectReversalPattern_order_counterexample :
    detectReversalPattern [c8first, c8second, c8third] ≠
        detectReversalPatternSpecOrder [c8first, c8second, c8third] ∧
      detectReversalPattern [c8first, c8second, c8third] =
        some { type := .bullish, name := "Hammer", strength := 85 / 97 } ∧
      detectReversalPatternSpecOrder [c8first, c8second, c8third] =
        some { type := .bullish, name := "Bullish Engulfing", strength := 5 / 3 } := by
  with_unfolding_all decide

/-- C8 (amended): for candle sequences of length at least 3,
`detectReversalPattern` returns the first match in the source's priority
order: 3-bar stars, 2-bar reversal, tweezers, pin bar, engulfing, doji,
inside bar. -/
theorem detectReversalPattern_priority (cs : List Candle) (h : 3 ≤ cs.length) :
    detectReversalPattern cs =
      firstSome
        [ detectMorningStar cs
        , detectEveningStar cs
        , detect2BarReversal (candleAt cs (cs.length - 2)) (candleAt cs (cs.length - 1))
        , detectTweezerTop (candleAt cs (cs.length - 2)) (candleAt cs (cs.length - 1))
        , detectTweezerBottom (candleAt cs (cs.length - 2)) (candleAt cs (cs.length - 1))
        , detectPinBar (candleAt cs (cs.length - 1))
        , detectEngulfing (candleAt cs (cs.length - 2)) (candleAt cs (cs.length - 1))
        , detectDoji (candleAt cs (cs.length - 1))
        , detectInsideBar (candleAt cs (cs.length - 2)) (candleAt cs (cs.length - 1)) ] := by
  have h2 : ¬cs.length < 2 := by omega
  simp only [detectReversalPattern, firstSome, h2, if_false, h, if_true]
  cases detectMorningStar cs <;>
    cases detectEveningStar cs <;>
      cases detect2BarReversal (candleAt cs (cs.length - 2)) (candleAt cs (cs.length - 1)) <;>
        cases detectTweezerTop (candleAt cs (cs.length - 2)) (candleAt cs (cs.length - 1)) <;>
          cases detectTweezerBottom (candleAt cs (cs.length - 2)) (candleAt cs (cs.length - 1)) <;>
            cases detectPinBar (candleAt cs (cs.length - 1)) <;>
              cases detectEngulfing (candleAt cs (cs.length - 2)) (candleAt cs (cs.length - 1)) <;>
                cases detectDoji (candleAt cs (cs.length - 1)) <;>
                  cases detectInsideBar (candleAt cs (cs.length - 2)) (candleAt cs (cs.length - 1)) <;>
                    simp [List.findSome?_cons]

theorem detectReversalPattern_priority_witness :
    3 ≤ ([c8first, c8second, c8third] : List Candle).length ∧
      detectReversalPattern [c8first, c8second, c8third] =
        firstSome
          [ detectMorningStar [c8first, c8second, c8third]
          , detectEveningStar [c8first, c8second, c8third]
          , detect2BarReversal c8second c8third
          , detectTweezerTop c8second c8third
          , detectTweezerBottom c8second c8third
          , detectPinBar c8third
          , detectEngulfing c8second c8third
          , detectDoji c8third
          , detectInsideBar c8second c8third ] :=
  ⟨by decide, detectReversalPattern_priority [c8first, c8second, c8third] (by decide)⟩

theorem chaseDecide_metrics (side : Side) (a p : ℚ) (m : ChaseMetrics) :
    (chaseDecide side a p m).metrics = m := by
  simp only [chaseDecide]
  repeat' split
  all_goals rfl

theorem chaseDecide_decision_consistent (side : Side) (a p : ℚ)
    (m : ChaseMetrics) :
    ((chaseDecide side a p m).decision = .CHASE_NO ↔
        50 ≤ (chaseDecide side a p m).score) ∧
      (25 ≤ (chaseDecide side a p m).score ∧ (chaseDecide side a p m).score < 50 →
        (chaseDecide side a p m).decision = .CHASE_OK) ∧
      ((chaseDecide side a p m).score < 25 →
        (chaseDecide side a p m).decision = .CHASE_OK ∨
          (chaseDecide side a p m).decision = .REVERSAL_WATCH) ∧
      ((chaseDecide side a p m).decision = .REVERSAL_WATCH →
        (chaseDecide side a p m).score < 25 ∧
          (m.volumeAnalysis.isClimax = true ∨
            (4 ≤ consecutiveFor side m ∧ m.momentumAnalysis.hasSlowdown = true) ∨
            (m.structureAnalysis.hasCHoCH = true ∧
              ((side = .LONG ∧ m.structureAnalysis.type = some .bearish) ∨
                (side = .SHORT ∧ m.structureAnalysis.type = some .bullish))))) := by
  by_cases h1 : ¬m.hasMovedAway = true ∨ (m.atrMove < 1 / 2 ∧ m.pctMove < 1 / 2)
  · simp only [chaseDecide, if_pos h1]
    exact ⟨by decide, by decide, by decide, fun h => absurd h (by decide)⟩
  · by_cases h2 : 50 ≤ chaseScore side a p m
    · simp only [chaseDecide, if_neg h1, if_pos h2]
      refine ⟨⟨fun _ => h2, fun _ => by trivial⟩, ?_, ?_, fun h => absurd h (by decide)⟩
      · intro h; exact absurd h2 (not_le.mpr h.2)
      · intro h; exact absurd h2 (not_le.mpr (by linarith))
    · by_cases h3 : 25 ≤ chaseScore side a p m ∧ chaseScore side a p m < 50
      · simp only [chaseDecide, if_neg h1, if_neg h2, if_pos h3]
        exact ⟨⟨fun h => absurd h (by decide), fun h => absurd h h2⟩,
          fun _ => by trivial, fun _ => Or.inl (by trivial), fun h => absurd h (by decide)⟩
      · have hlt : chaseScore side a p m < 25 := by
          rcases not_and_or.mp h3 with h | h
          · exact lt_of_not_le h
          · exact absurd (le_of_not_lt h) h2
        by_cases h4 : m.volumeAnalysis.isClimax = true ∨
            (4 ≤ consecutiveFor side m ∧ m.momentumAnalysis.hasSlowdown = true) ∨
            (m.structureAnalysis.hasCHoCH = true ∧
              ((side = .LONG ∧ m.structureAnalysis.type = some .bearish) ∨
                (side = .SHORT ∧ m.structureAnalysis.type = some .bullish)))
        · simp only [chaseDecide, if_neg h1, if_neg h2, if_neg h3, if_pos h4]
          exact ⟨⟨fun h => absurd h (by decide), fun h => absurd h h2⟩,
            fun h => absurd h h3, fun _ => Or.inr (by trivial), fun _ => ⟨hlt, h4⟩⟩
        · simp only [chaseDecide, if_neg h1, if_neg h2, if_neg h3, if_neg h4]
          exact ⟨⟨fun h => absurd h (by decide), fun h => absurd h h2⟩,
            fun _ => by trivial, fun _ => Or.inl (by trivial), fun h => absurd h (by decide)⟩

/-- C9: `evaluateChaseRisk` always yields decision/reason/score/metrics,
the decision is `CHASE_NO` exactly for scores at least 50, `CHASE_OK`
throughout `[25, 50)`, and below 25 it is `CHASE_OK` unless promoted to
`REVERSAL_WATCH` by a volume climax, a long consecutive run with momentum
slowdown, or a counter-side CHoCH. -/
theorem evaluateChaseRisk_decision_consistent (candles : List Candle)
    (setup : Setup) (cfg : EngineConfig) :
    ((evaluateChaseRisk candles setup cfg).decision = .CHASE_NO ↔
        50 ≤ (evaluateChaseRisk candles setup cfg).score) ∧
      (25 ≤ (evaluateChaseRisk candles setup cfg).score ∧
          (evaluateChaseRisk candles setup cfg).score < 50 →
        (evaluateChaseRisk candles setup cfg).decision = .CHASE_OK) ∧
      ((evaluateChaseRisk candles setup cfg).score < 25 →
        (evaluateChaseRisk candles setup cfg).decision = .CHASE_OK ∨
          (evaluateChaseRisk candles setup cfg).decision = .REVERSAL_WATCH) ∧
      ((evaluateChaseRisk candles setup cfg).decision = .REVERSAL_WATCH →
        (evaluateChaseRisk candles setup cfg).score < 25 ∧
          ((evaluateChaseRisk candles setup cfg).metrics.volumeAnalysis.isClimax =
              true ∨
            (4 ≤ consecutiveFor setup.side
                  (evaluateChaseRisk candles setup cfg).metrics ∧
              (evaluateChaseRisk candles setup
                  cfg).metrics.momentumAnalysis.hasSlowdown = true) ∨
            ((evaluateChaseRisk candles setup
                  cfg).metrics.structureAnalysis.hasCHoCH = true ∧
              ((setup.side = .LONG ∧
                  (evaluateChaseRisk candles setup
                      cfg).metrics.structureAnalysis.type = some .bearish) ∨
                (setup.side = .SHORT ∧
                  (evaluateChaseRisk candles setup
                      cfg).metrics.structureAnalysis.type = some .bullish))))) := by
  have hm := chaseDecide_metrics setup.side (jsOrQ cfg.antiChaseMaxATR 2)
    (jsOrQ cfg.antiChaseMaxPct 3) (evalChaseMetrics candles setup)
  have hc := chaseDecide_decision_consistent setup.side
    (jsOrQ cfg.antiChaseMaxATR 2) (jsOrQ cfg.antiChaseMaxPct 3)
    (evalChaseMetrics candles setup)
  have he : evaluateChaseRisk candles setup cfg =
      chaseDecide setup.side (jsOrQ cfg.antiChaseMaxATR 2)
        (jsOrQ cfg.antiChaseMaxPct 3) (evalChaseMetrics candles setup) := rfl
  rw [he, hm]
  exact hc

theorem mem_alSet {V : Type} (k : String × String) (v : V)
    (m : List ((String × String) × V)) :
    ∀ x ∈ alSet k v m, x = (k, v) ∨ x ∈ m := by
  induction m with
  | nil => intro x hx; simp [alSet] at hx; simp [hx]
  | cons e rest ih =>
    intro x hx
    by_cases h : e.1 = k
    · simp only [alSet, if_pos h, List.mem_cons] at hx
      rcases hx with h1 | h2
      · exact Or.inl h1
      · exact Or.inr (List.mem_cons_of_mem _ h2)
    · simp only [alSet, if_neg h, List.mem_cons] at hx
      rcases hx with h1 | h2
      · exact Or.inr (by simp [h1])
      · rcases ih x h2 with h3 | h4
        · exact Or.inl h3
        · exact Or.inr (List.mem_cons_of_mem _ h4)

theorem alGet_eq_some_mem {V : Type} (k : String × String) (v : V)
    (m : List ((String × String) × V)) (h : alGet k m = some v) :
    ∃ e ∈ m, e.2 = v := by
  unfold alGet at h
  cases hf : m.find? (fun e => e.1 = k) with
  | none => rw [hf] at h; cases h
  | some e =>
    rw [hf] at h
    exact ⟨e, List.mem_of_find?_eq_some hf, by cases h; rfl⟩

theorem mem_upsertNonempty (cs : List Candle) (c : Candle) :
    ∀ x ∈ upsertNonempty cs c, x ∈ cs ∨ x = c := by
  intro x hx
  simp only [upsertNonempty] at hx
  split at hx
  · rcases List.mem_append.mp hx with h | h
    · exact Or.inl (List.dropLast_sublist cs |>.mem h)
    · exact Or.inr (List.mem_singleton.mp h)
  · split at hx
    · rcases List.mem_append.mp ((List.tail_sublist _).mem hx) with h | h
      · exact Or.inl h
      · exact Or.inr (List.mem_singleton.mp h)
    · rcases List.mem_append.mp hx with h | h
      · exact Or.inl h
      · exact Or.inr (List.mem_singleton.mp h)

theorem allClosedB_applyOp (st : CacheState) (op : CacheOp)
    (hst : allClosedB st = true) (hop : closedOnlyOp op = true) :
    allClosedB (applyOp st op) = true := by
  simp only [allClosedB, List.all_eq_true] at hst ⊢
  cases op with
  | opInit sym tf initial =>
    intro e he
    rcases mem_alSet (sym, tf) initial st.cache e he with h | h
    · subst h
      simpa [closedOnlyOp] using hop
    · exact hst e h
  | opForming sym tf c =>
    intro e he
    exact hst e he
  | opUpdate sym tf c =>
    simp only [applyOp, updateCandle]
    cases hg : alGet (sym, tf) st.cache with
    | none => exact hst
    | some cs =>
      have hcs : ∀ x ∈ cs, x.isClosed = true := by
        obtain ⟨e, he, hev⟩ := alGet_eq_some_mem _ _ _ hg
        intro x hx
        have := hst e he
        rw [hev] at this
        simpa using this x hx
      dsimp only
      by_cases hemp : cs.isEmpty = true
      · rw [if_pos hemp]
        intro e he
        rcases mem_alSet (sym, tf) [c] st.cache e he with h | h
        · subst h
          intro x hx
          rcases List.mem_singleton.mp hx with rfl
          simpa [closedOnlyOp] using hop
        · exact hst e h
      · rw [if_neg hemp]
        intro e he
        rcases mem_alSet (sym, tf) (upsertNonempty cs c) st.cache e he with h | h
        · subst h
          intro x hx
          rcases mem_upsertNonempty cs c x hx with h2 | h2
          · exact hcs x h2
          · subst h2
            simpa [closedOnlyOp] using hop
        · exact hst e h

/-- C5 (amended): provided `init` and `updateCandle` are only fed closed
candles — as the ingestion layer does — the closed-candle read never
contains a candle with `isClosed = false`, and `getWithForming` is the
closed sequence with at most one extra candle appended at the end
(the latter unconditionally). -/
theorem forming_isolation (st : CacheState) (ops : List CacheOp)
    (sym tf : String) (hst : allClosedB st = true)
    (hops : ops.all closedOnlyOp = true) :
    (cacheGet (applyOps st ops) sym tf).all (fun c => c.isClosed) = true ∧
      ∃ rest, getWithForming (applyOps st ops) sym tf =
          cacheGet (applyOps st ops) sym tf ++ rest ∧ rest.length ≤ 1 := by
  have hall : allClosedB (applyOps st ops) = true := by
    induction ops generalizing st with
    | nil => exact hst
    | cons op rest ih =>
      simp only [List.all_cons, Bool.and_eq_true] at hops
      exact ih (applyOp st op) (allClosedB_applyOp st op hst hops.1) hops.2
  constructor
  · simp only [allClosedB, List.all_eq_true] at hall
    simp only [List.all_eq_true]
    intro c hc
    unfold cacheGet at hc
    cases hg : alGet (sym, tf) (applyOps st ops).cache with
    | none => rw [hg] at hc; cases hc
    | some cs =>
      rw [hg] at hc
      obtain ⟨e, he, hev⟩ := alGet_eq_some_mem _ _ _ hg
      have h2 := hall e he
      rw [hev] at h2
      exact h2 c hc
  · rcases hf : getFormingCandle (applyOps st ops) sym tf with _ | f
    · exact ⟨[], by simp [getWithForming, hf], by simp⟩
    · exact ⟨[f], by simp [getWithForming, hf], by simp⟩

/-- C5 counterexample: the claim quantifies over every operation sequence,
but `updateCandle` pushes whatever candle it is given into the closed list,
so feeding it a forming (`isClosed = false`) candle makes the closed-only
read return a non-closed candle. -/
theorem forming_isolation_counterexample :
    (cacheGet (applyOps emptyCache
        [.opInit "B" "h" [], .opUpdate "B" "h" notClosedCandle]) "B" "h").all
      (fun c => c.isClosed) = false := by
  decide

theorem forming_isolation_witness :
    allClosedB emptyCache = true ∧
      ([CacheOp.opInit "B" "h" [candleAtTime 1],
        CacheOp.opUpdate "B" "h" (candleAtTime 2),
        CacheOp.opForming "B" "h" notClosedCandle].all closedOnlyOp) = true ∧
      ((cacheGet (applyOps emptyCache
          [CacheOp.opInit "B" "h" [candleAtTime 1],
           CacheOp.opUpdate "B" "h" (candleAtTime 2),
           CacheOp.opForming "B" "h" notClosedCandle]) "B" "h").all
          (fun c => c.isClosed) = true ∧
        ∃ rest, getWithForming (applyOps emptyCache
            [CacheOp.opInit "B" "h" [candleAtTime 1],
             CacheOp.opUpdate "B" "h" (candleAtTime 2),
             CacheOp.opForming "B" "h" notClosedCandle]) "B" "h" =
            cacheGet (applyOps emptyCache
              [CacheOp.opInit "B" "h" [candleAtTime 1],
               CacheOp.opUpdate "B" "h" (candleAtTime 2),
               CacheOp.opForming "B" "h" notClosedCandle]) "B" "h" ++ rest ∧
          rest.length ≤ 1) :=
  ⟨rfl, rfl,
    forming_isolation emptyCache
      [CacheOp.opInit "B" "h" [candleAtTime 1],
       CacheOp.opUpdate "B" "h" (candleAtTime 2),
       CacheOp.opForming "B" "h" notClosedCandle] "B" "h" rfl rfl⟩

theorem upsert_good (cs : List Candle) (c : Candle) (hg : GoodList cs)
    (hle : ∀ x ∈ cs.getLast?, x.openTime ≤ c.openTime) :
    GoodList (if cs.isEmpty then [c] else upsertNonempty cs c) ∧
      (if cs.isEmpty then [c] else upsertNonempty cs c).getLast? = some c := by
  induction cs using List.reverseRecOn with
  | nil => exact ⟨⟨List.pairwise_singleton _ _, by simp⟩, rfl⟩
  | append_singleton l a _ =>
    have hne : l ++ [a] ≠ [] := by simp
    have hlast : (l ++ [a]).getLast? = some a := List.getLast?_concat l
    have hale : a.openTime ≤ c.openTime := hle a (by rw [hlast]; rfl)
    obtain ⟨hsorted, hlen⟩ := hg
    have hdec := List.pairwise_append.mp hsorted
    have hxa : ∀ x ∈ l, x.openTime < a.openTime := by
      intro x hx
      exact hdec.2.2 x hx a (List.mem_singleton_self a)
    have hxc : ∀ x ∈ l ++ [a], x.openTime ≤ c.openTime := by
      intro x hx
      rcases List.mem_append.mp hx with h | h
      · exact le_trans (le_of_lt (hxa x h)) hale
      · rw [List.mem_singleton.mp h]; exact hale
    have hempf : (l ++ [a]).isEmpty = false := by simp
    rw [hempf]
    simp only [Bool.false_eq_true, if_false]
    unfold upsertNonempty
    rw [hlast]
    by_cases heq : a.openTime = c.openTime
    · have hcond : Option.map Candle.openTime (some a) = some c.openTime := by
        simp [heq]
      rw [if_pos hcond, List.dropLast_concat]
      refine ⟨⟨List.pairwise_append.mpr
        ⟨hdec.1, List.pairwise_singleton _ _, ?_⟩, ?_⟩, List.getLast?_concat l⟩
      · intro x hx y hy
        rw [List.mem_singleton.mp hy]
        rw [← heq]
        exact hxa x hx
      · simpa using hlen
    · have hif : ¬(Option.map Candle.openTime (some a) = some c.openTime) := by
        simpa using heq
      rw [if_neg hif]
      have hpair : List.Pairwise (fun x y => x.openTime < y.openTime)
          ((l ++ [a]) ++ [c]) := by
        refine List.pairwise_append.mpr ⟨hsorted, List.pairwise_singleton _ _, ?_⟩
        intro x hx y hy
        rw [List.mem_singleton.mp hy]
        rcases List.mem_append.mp hx with h | h
        · exact lt_of_lt_of_le (hxa x h) hale
        · rw [List.mem_singleton.mp h]
          exact lt_of_le_of_ne hale heq
      dsimp only
      split
      · refine ⟨⟨?_, ?_⟩, ?_⟩
        · exact List.Pairwise.sublist (List.tail_sublist _) hpair
        · simp only [List.length_tail, List.length_append, List.length_singleton]
          simp only [List.length_append, List.length_singleton] at hlen
          omega
        · cases l with
          | nil =>
            simp only [List.length_append, List.length_nil,
              List.length_singleton] at *
            omega
          | cons hd tl =>
            show (tl ++ [a] ++ [c]).getLast? = some c
            exact List.getLast?_concat _
      · refine ⟨⟨hpair, ?_⟩, List.getLast?_concat _⟩
        simp only [List.length_append, List.length_singleton] at *
        omega

theorem cacheGet_updateCandle (st : CacheState) (sym tf : String) (c : Candle)
    (cs : List Candle) (hg : alGet (sym, tf) st.cache = some cs) :
    alGet (sym, tf) (updateCandle st sym tf c).cache =
      some (if cs.isEmpty then [c] else upsertNonempty cs c) := by
  unfold updateCandle
  rw [hg]
  dsimp only
  by_cases hemp : cs.isEmpty = true
  · rw [if_pos hemp, if_pos hemp]
    exact alGet_alSet_self _ _ _
  · rw [if_neg hemp]
    have hemp2 : cs.isEmpty = false := by
      cases h : cs.isEmpty
      · rfl
      · exact absurd h hemp
    rw [hemp2]
    simp only [Bool.false_eq_true, if_false]
    exact alGet_alSet_self _ _ _

theorem run_good (sym tf : String) (events : List Candle) :
    ∀ (st : CacheState) (cs : List Candle),
      alGet (sym, tf) st.cache = some cs → GoodList cs →
      List.Chain' (fun a b => a.openTime ≤ b.openTime) events →
      (∀ x ∈ cs.getLast?, ∀ y ∈ events.head?, x.openTime ≤ y.openTime) →
      GoodList (cacheGet (runUpdates st sym tf events) sym tf) := by
  induction events with
  | nil =>
    intro st cs hg hgood _ _
    unfold runUpdates
    simpa [cacheGet, hg] using hgood
  | cons e rest ih =>
    intro st cs hg hgood hchain hhead
    have hle : ∀ x ∈ cs.getLast?, x.openTime ≤ e.openTime := by
      intro x hx
      exact hhead x hx e rfl
    have hstep := upsert_good cs e hgood hle
    have hget := cacheGet_updateCandle st sym tf e cs hg
    show GoodList (cacheGet (runUpdates (updateCandle st sym tf e) sym tf rest) sym tf)
    refine ih (updateCandle st sym tf e) _ hget hstep.1 hchain.tail ?_
    intro x hx y hy
    rw [hstep.2] at hx
    cases hx
    exact (List.chain'_cons'.mp hchain).1 y hy

/-- C4 (amended): provided the pair is initialized with a strictly
ascending list within the retention cap and the upserted candles arrive
with non-decreasing `openTime` continuing the initial list — the stream
discipline of spec section 5 — the closed-candle read stays strictly
ascending by `openTime` and within the cap of 1000 (tail replacement on
equal `openTime`, head drop on overflow, by the `updateCandle`
definition). -/
theorem closed_candles_sorted_bounded (st : CacheState) (sym tf : String)
    (initial events : List Candle) (hinit : GoodList initial)
    (hchain : List.Chain' (fun a b => a.openTime ≤ b.openTime) events)
    (hlink : ∀ x ∈ initial.getLast?, ∀ y ∈ events.head?,
      x.openTime ≤ y.openTime) :
    GoodList (cacheGet (runUpdates (cacheInit st sym tf initial) sym tf events)
      sym tf) :=
  run_good sym tf events _ initial (alGet_alSet_self _ _ _) hinit hchain hlink

/-- C4 counterexample: the claim as stated quantifies over every upsert
sequence, but an out-of-order candle is appended as-is, breaking the
strictly-ascending invariant. -/
theorem closed_candles_order_counterexample :
    ¬TimeSorted (cacheGet (runUpdates (cacheInit emptyCache "B" "h" [])
        "B" "h" [candleAtTime 2, candleAtTime 1]) "B" "h") := by
  decide

theorem closed_candles_sorted_bounded_witness :
    GoodList [candleAtTime 1] ∧
      List.Chain' (fun a b => a.openTime ≤ b.openTime)
        [candleAtTime 2, candleAtTime 3] ∧
      (∀ x ∈ ([candleAtTime 1] : List Candle).getLast?,
        ∀ y ∈ ([candleAtTime 2, candleAtTime 3] : List Candle).head?,
          x.openTime ≤ y.openTime) ∧
      GoodList (cacheGet (runUpdates
        (cacheInit emptyCache "B" "h" [candleAtTime 1]) "B" "h"
        [candleAtTime 2, candleAtTime 3]) "B" "h") :=
  have hchain : List.Chain' (fun a b : Candle => a.openTime ≤ b.openTime)
      [candleAtTime 2, candleAtTime 3] :=
    List.chain'_cons'.mpr
      ⟨fun y hy => by
        have hy2 : candleAtTime 3 = y := by simpa using hy
        subst hy2; decide, List.chain'_singleton _⟩
  have hlink : ∀ x ∈ ([candleAtTime 1] : List Candle).getLast?,
      ∀ y ∈ ([candleAtTime 2, candleAtTime 3] : List Candle).head?,
        x.openTime ≤ y.openTime := by
    intro x hx y hy
    have hx2 : candleAtTime 1 = x := by simpa using hx
    have hy2 : candleAtTime 2 = y := by simpa using hy
    subst hx2; subst hy2; decide
  ⟨by decide, hchain, hlink,
    closed_candles_sorted_bounded emptyCache "B" "h" [candleAtTime 1]
      [candleAtTime 2, candleAtTime 3] (by decide) hchain hlink⟩

theorem diffPercent_mono (a b c : ℚ) (ha : 0 < a) (hab : a ≤ b) (hbc : b ≤ c) :
    diffPercent a b ≤ diffPercent a c := by
  unfold diffPercent
  rw [abs_of_nonneg (by linarith), abs_of_nonneg (by linarith)]
  have hb : 0 < (b + a) / 2 := by linarith
  have hc : 0 < (c + a) / 2 := by linarith
  rw [div_mul_eq_mul_div, div_mul_eq_mul_div, div_le_div_iff₀ hb hc]
  nlinarith

theorem mergeStep_inv (thr : ℚ) :
    ∀ (l acc : List Zone),
      List.Sorted zoneLE l →
      (∀ z ∈ l, 0 < z.center) →
      (∀ z ∈ acc, 0 < z.center) →
      List.Chain' (fun a b => MergeOrd thr b a) acc →
      (∀ a ∈ acc.head?, ∀ c ∈ l, a.center ≤ c.center) →
      (∀ z ∈ l.foldl (mergeStep thr) acc, 0 < z.center) ∧
        List.Chain' (fun a b => MergeOrd thr b a) (l.foldl (mergeStep thr) acc) := by
  intro l
  induction l with
  | nil =>
    intro acc _ _ hpos hchain _
    exact ⟨hpos, hchain⟩
  | cons z l ih =>
    intro acc hsorted hlpos hpos hchain hbound
    have hdec := List.sorted_cons.mp hsorted
    have hzpos : 0 < z.center := hlpos z (List.mem_cons_self z l)
    have hlpos' : ∀ c ∈ l, 0 < c.center := fun c hc =>
      hlpos c (List.mem_cons_of_mem z hc)
    have hzl : ∀ c ∈ l, z.center ≤ c.center := fun c hc => hdec.1 c hc
    cases acc with
    | nil =>
      simp only [List.foldl_cons]
      refine ih [z] hdec.2 hlpos' ?_ ?_ ?_
      · intro w hw
        rcases List.mem_singleton.mp hw with rfl
        exact hzpos
      · exact List.chain'_singleton z
      · intro a ha c hc
        have haz : z = a := by simpa using ha
        subst haz
        exact hzl c hc
    | cons last rest =>
      have hlastpos : 0 < last.center := hpos last (List.mem_cons_self _ _)
      have hlz : last.center ≤ z.center := hbound last rfl z (List.mem_cons_self z l)
      have hchain' := List.chain'_cons'.mp hchain
      by_cases hm : diffPercent last.center z.center ≤ thr
      · have hstep : mergeStep thr (last :: rest) z = mergeTwo last z :: rest := by
          unfold mergeStep
          dsimp only
          rw [if_pos hm]
        simp only [List.foldl_cons, hstep]
        have hcenter_lo : last.center ≤ (mergeTwo last z).center := by
          simp only [mergeTwo]
          linarith
        have hcenter_hi : (mergeTwo last z).center ≤ z.center := by
          simp only [mergeTwo]
          linarith
        refine ih (mergeTwo last z :: rest) hdec.2 hlpos' ?_ ?_ ?_
        · intro w hw
          rcases List.mem_cons.mp hw with rfl | hw2
          · simp only [mergeTwo]
            linarith
          · exact hpos w (List.mem_cons_of_mem _ hw2)
        · refine List.Chain'.cons' hchain'.2 ?_
          intro y hy
          have hylast : MergeOrd thr y last := hchain'.1 y hy
          have hypos : 0 < y.center :=
            hpos y (List.mem_cons_of_mem _ (List.mem_of_mem_head? hy))
          exact ⟨le_trans hylast.1 hcenter_lo,
            lt_of_lt_of_le hylast.2
              (diffPercent_mono y.center last.center (mergeTwo last z).center
                hypos hylast.1 hcenter_lo)⟩
        · intro a ha c hc
          have haz : mergeTwo last z = a := by simpa using ha
          subst haz
          exact le_trans hcenter_hi (hzl c hc)
      · have hstep : mergeStep thr (last :: rest) z = z :: last :: rest := by
          unfold mergeStep
          dsimp only
          rw [if_neg hm]
        simp only [List.foldl_cons, hstep]
        refine ih (z :: last :: rest) hdec.2 hlpos' ?_ ?_ ?_
        · intro w hw
          rcases List.mem_cons.mp hw with rfl | hw2
          · exact hzpos
          · exact hpos w hw2
        · exact List.chain'_cons.mpr ⟨⟨hlz, not_le.mp hm⟩, hchain⟩
        · intro a ha c hc
          have haz : z = a := by simpa using ha
          subst haz
          exact hzl c hc

theorem pairwise_of_chain_mergeOrd (thr : ℚ) :
    ∀ l : List Zone, (∀ z ∈ l, 0 < z.center) →
      List.Chain' (MergeOrd thr) l → List.Pairwise (MergeOrd thr) l := by
  intro l
  induction l with
  | nil => intro _ _; exact List.Pairwise.nil
  | cons a t ih =>
    intro hpos hchain
    have hpt := ih (fun z hz => hpos z (List.mem_cons_of_mem a hz)) hchain.tail
    refine List.pairwise_cons.mpr ⟨?_, hpt⟩
    intro b hb
    cases t with
    | nil => cases hb
    | cons h0 t2 =>
      have hah : MergeOrd thr a h0 := (List.chain'_cons.mp hchain).1
      rcases List.mem_cons.mp hb with rfl | hb2
      · exact hah
      · have hhb : h0.center ≤ b.center :=
          ((List.pairwise_cons.mp hpt).1 b hb2).1
        have ha0 : 0 < a.center := hpos a (List.mem_cons_self _ _)
        exact ⟨le_trans hah.1 hhb,
          lt_of_lt_of_le hah.2
            (diffPercent_mono a.center h0.center b.center ha0 hah.1 hhb)⟩

theorem fold_keep (thr : ℚ) :
    ∀ (l : List Zone) (a : Zone) (rest : List Zone),
      List.Chain' (MergeOrd thr) (a :: l) →
      l.foldl (mergeStep thr) (a :: rest) = l.reverse ++ a :: rest := by
  intro l
  induction l with
  | nil => intro a rest _; rfl
  | cons b t ih =>
    intro a rest hchain
    have hab : MergeOrd thr a b := (List.chain'_cons.mp hchain).1
    have hstep : mergeStep thr (a :: rest) b = b :: a :: rest := by
      unfold mergeStep
      dsimp only
      rw [if_neg (not_le.mpr hab.2)]
    simp only [List.foldl_cons, hstep]
    rw [ih b (a :: rest) (List.chain'_cons.mp hchain).2]
    simp

theorem mergeNearbyZones_props (zones : List Zone) (thr : ℚ)
    (hpos : ∀ z ∈ zones, 0 < z.center) :
    (∀ z ∈ mergeNearbyZones zones thr, 0 < z.center) ∧
      List.Chain' (MergeOrd thr) (mergeNearbyZones zones thr) := by
  have hsorted := List.sorted_insertionSort zoneLE zones
  have hspos : ∀ z ∈ zones.insertionSort zoneLE, 0 < z.center := by
    intro z hz
    exact hpos z ((List.mem_insertionSort zoneLE).mp hz)
  have hinv := mergeStep_inv thr (zones.insertionSort zoneLE) [] hsorted hspos
    (by simp) (by simp) (by simp)
  unfold mergeNearbyZones
  refine ⟨?_, ?_⟩
  · intro z hz
    exact hinv.1 z (List.mem_reverse.mp hz)
  · exact List.chain'_reverse.mpr hinv.2

theorem mergeNearbyZones_idem (zones : List Zone) (thr : ℚ)
    (hpos : ∀ z ∈ zones, 0 < z.center) :
    mergeNearbyZones (mergeNearbyZones zones thr) thr =
      mergeNearbyZones zones thr := by
  obtain ⟨hp, hc⟩ := mergeNearbyZones_props zones thr hpos
  have hpw := pairwise_of_chain_mergeOrd thr (mergeNearbyZones zones thr) hp hc
  have hsorted : List.Sorted zoneLE (mergeNearbyZones zones thr) :=
    hpw.imp (fun h => h.1)
  conv_lhs => rw [mergeNearbyZones]
  rw [List.Sorted.insertionSort_eq hsorted]
  cases hM : mergeNearbyZones zones thr with
  | nil => rfl
  | cons a t =>
    rw [hM] at hc
    have h1 : (a :: t).foldl (mergeStep thr) [] = t.foldl (mergeStep thr) [a] := rfl
    rw [h1, fold_keep thr t a [] hc]
    simp

/-- C7: zone merging at the threshold the program actually passes —
`buildZones` calls `mergeNearbyZones(zones, tolerance * 2)`
(`zones.js:58-59`) — is idempotent, and any two distinct zones in the
merged list have centers at least `2 * tolerance` percent (of the average
of the two centers) apart: the sweep merges adjacent zones while their
percentage distance is `≤ 2 * tolerance`, so survivors are strictly
further apart than that (for zone lists with positive centers, as built
from price pivots). -/
theorem merge_idempotent_separated (zones : List Zone) (tolerance : ℚ)
    (hpos : ∀ z ∈ zones, 0 < z.center) :
    mergeNearbyZones (mergeNearbyZones zones (tolerance * 2)) (tolerance * 2) =
        mergeNearbyZones zones (tolerance * 2) ∧
      List.Pairwise
        (fun a b => tolerance * 2 ≤ diffPercent a.center b.center)
        (mergeNearbyZones zones (tolerance * 2)) := by
  refine ⟨mergeNearbyZones_idem zones (tolerance * 2) hpos, ?_⟩
  obtain ⟨hp, hc⟩ := mergeNearbyZones_props zones (tolerance * 2) hpos
  have hpw := pairwise_of_chain_mergeOrd (tolerance * 2) _ hp hc
  exact hpw.imp (fun h => le_of_lt h.2)

theorem merge_idempotent_separated_witness :
    (∀ z ∈ [zoneSupport99, zoneResistance105, zoneResistance110],
        0 < z.center) ∧
      (mergeNearbyZones (mergeNearbyZones
          [zoneSupport99, zoneResistance105, zoneResistance110] ((1 / 2) * 2))
          ((1 / 2) * 2) =
        mergeNearbyZones [zoneSupport99, zoneResistance105, zoneResistance110]
          ((1 / 2) * 2) ∧
        List.Pairwise
          (fun a b => (1 / 2) * 2 ≤ diffPercent a.center b.center)
          (mergeNearbyZones [zoneSupport99, zoneResistance105, zoneResistance110]
            ((1 / 2) * 2))) :=
  ⟨by decide,
    merge_idempotent_separated [zoneSupport99, zoneResistance105, zoneResistance110]
      (1 / 2) (by decide)⟩

theorem jsToFixed_mono (d : ℕ) {x y : ℚ} (h : x ≤ y) :
    jsToFixed d x ≤ jsToFixed d y := by
  unfold jsToFixed
  have hp : (0 : ℚ) < 10 ^ d := pow_pos (by norm_num) d
  have hr : (round (x * 10 ^ d) : ℤ) ≤ round (y * 10 ^ d) := by
    rw [round_eq, round_eq]
    apply Int.floor_le_floor
    nlinarith
  exact (div_le_div_iff_of_pos_right hp).mpr (by exact_mod_cast hr)

theorem jsToFixed_close (d : ℕ) (x : ℚ) :
    |jsToFixed d x - x| ≤ 1 / (2 * 10 ^ d) := by
  unfold jsToFixed
  have hp : (0 : ℚ) < 10 ^ d := pow_pos (by norm_num) d
  have h := abs_sub_round (x * 10 ^ d)
  rw [abs_sub_comm] at h
  have heq : ((round (x * 10 ^ d) : ℤ) : ℚ) / 10 ^ d - x =
      (((round (x * 10 ^ d) : ℤ) : ℚ) - x * 10 ^ d) / 10 ^ d := by
    field_simp
    ring
  rw [heq, abs_div, abs_of_pos hp, div_le_div_iff₀ hp (by positivity)]
  nlinarith

theorem slStep_fold_spec (side : Side) (p : ℚ) :
    ∀ (zs : List Zone) (acc : Option (Zone × ℚ)) (z : Zone) (dd : ℚ),
      zs.foldl (slStep side p) acc = some (z, dd) →
      acc = some (z, dd) ∨
        (z ∈ zs ∧ (side = .LONG → z.center < p) ∧ (side = .SHORT → p < z.center)) := by
  intro zs
  induction zs with
  | nil =>
    intro acc z dd h
    exact Or.inl h
  | cons w zs ih =>
    intro acc z dd h
    simp only [List.foldl_cons] at h
    have key : slStep side p acc w = acc ∨
        (slStep side p acc w = some (w, |p - w.center|) ∧
          (side = .LONG → w.center < p) ∧ (side = .SHORT → p < w.center)) := by
      unfold slStep
      cases side with
      | LONG =>
        by_cases hq : w.center < p
        · rw [if_pos (by simpa using hq)]
          cases acc with
          | none =>
            exact Or.inr ⟨rfl, fun _ => hq, fun hs => absurd hs (by decide)⟩
          | some b =>
            dsimp only
            by_cases hd : |p - w.center| < b.2
            · rw [if_pos hd]
              exact Or.inr ⟨rfl, fun _ => hq, fun hs => absurd hs (by decide)⟩
            · rw [if_neg hd]
              exact Or.inl rfl
        · rw [if_neg (by simpa using hq)]
          exact Or.inl rfl
      | SHORT =>
        by_cases hq : p < w.center
        · rw [if_pos (by simpa using hq)]
          cases acc with
          | none =>
            exact Or.inr ⟨rfl, fun hs => absurd hs (by decide), fun _ => hq⟩
          | some b =>
            dsimp only
            by_cases hd : |p - w.center| < b.2
            · rw [if_pos hd]
              exact Or.inr ⟨rfl, fun hs => absurd hs (by decide), fun _ => hq⟩
            · rw [if_neg hd]
              exact Or.inl rfl
        · rw [if_neg (by simpa using hq)]
          exact Or.inl rfl
    rcases ih (slStep side p acc w) z dd h with h2 | h2
    · rcases key with hk | hk
      · rw [hk] at h2
        exact Or.inl h2
      · rw [hk.1] at h2
        cases h2
        exact Or.inr ⟨List.mem_cons_self _ _, hk.2.1, hk.2.2⟩
    · exact Or.inr ⟨List.mem_cons_of_mem _ h2.1, h2.2.1, h2.2.2⟩

theorem findStopLossZone_spec (p : ℚ) (zs : List Zone) (side : Side) (z : Zone)
    (h : findStopLossZone p zs side = some z) :
    z ∈ zs ∧ (side = .LONG → z.center < p) ∧ (side = .SHORT → p < z.center) := by
  unfold findStopLossZone at h
  cases hf : zs.foldl (slStep side p) none with
  | none => rw [hf] at h; cases h
  | some b =>
    rw [hf] at h
    cases h
    rcases slStep_fold_spec side p zs none b.1 b.2 hf with h2 | h2
    · cases h2
    · exact h2

theorem findNextOpposingZones_mem (p : ℚ) (zs : List Zone) (side : Side)
    (k : ℕ) :
    ∀ oz ∈ findNextOpposingZones p zs side k,
      (side = .LONG → p < oz.z.center ∧ oz.distance = oz.z.center - p) ∧
        (side = .SHORT → oz.z.center < p ∧ oz.distance = p - oz.z.center) := by
  intro oz hoz
  unfold findNextOpposingZones at hoz
  have hsort := List.mem_of_mem_take hoz
  have hmem := (List.mem_insertionSort oppLE).mp hsort
  rcases List.mem_filterMap.mp hmem with ⟨zone, _, hz⟩
  cases side with
  | LONG =>
    dsimp only at hz
    split at hz
    · cases hz
      exact ⟨fun _ => ⟨by assumption, rfl⟩, fun hs => absurd hs (by decide)⟩
    · cases hz
  | SHORT =>
    dsimp only at hz
    split at hz
    · cases hz
      exact ⟨fun hs => absurd hs (by decide), fun _ => ⟨by assumption, rfl⟩⟩
    · cases hz

theorem findNextOpposingZones_sorted (p : ℚ) (zs : List Zone) (side : Side)
    (k : ℕ) :
    List.Pairwise oppLE (findNextOpposingZones p zs side k) := by
  unfold findNextOpposingZones
  exact (List.sorted_insertionSort oppLE _).sublist (List.take_sublist _ _)

theorem levels_long_ok (setup : Setup) (zoneSLBuffer : ℚ)
    (hside : setup.side = .LONG)
    (hsup : ∀ z ∈ setup.zones.support, ZoneWF z)
    (hown : ∀ z ∈ setup.zone.toList, ZoneWF z ∧ z.lower < setup.price)
    (hprice : 0 < setup.price)
    (hb0 : 0 < zoneSLBuffer) (hb100 : zoneSLBuffer < 100) :
    (longStopLossRaw setup (resolveSLBuffer zoneSLBuffer)).2 < setup.price ∧
      setup.price <
        (longTPsRaw setup
          (longStopLossRaw setup (resolveSLBuffer zoneSLBuffer)).2).1 ∧
      ((longTPsRaw setup
            (longStopLossRaw setup (resolveSLBuffer zoneSLBuffer)).2).2.2.length ≠ 1 →
        (longTPsRaw setup
            (longStopLossRaw setup (resolveSLBuffer zoneSLBuffer)).2).1 ≤
          (longTPsRaw setup
            (longStopLossRaw setup (resolveSLBuffer zoneSLBuffer)).2).2.1) ∧
      (calculateLevels setup zoneSLBuffer).stopLoss ≤
        (calculateLevels setup zoneSLBuffer).entry ∧
      (calculateLevels setup zoneSLBuffer).entry ≤
        (calculateLevels setup zoneSLBuffer).takeProfit1 ∧
      (calculateLevels setup zoneSLBuffer).riskReward1 =
        jsToFixed 2
          (((longTPsRaw setup
                (longStopLossRaw setup (resolveSLBuffer zoneSLBuffer)).2).1 -
              setup.price) /
            (setup.price -
              (longStopLossRaw setup (resolveSLBuffer zoneSLBuffer)).2)) ∧
      |(calculateLevels setup zoneSLBuffer).riskReward1 -
          ((longTPsRaw setup
                (longStopLossRaw setup (resolveSLBuffer zoneSLBuffer)).2).1 -
              setup.price) /
            (setup.price -
              (longStopLossRaw setup (resolveSLBuffer zoneSLBuffer)).2)| ≤
        1 / 200 := by
  have hbr : resolveSLBuffer zoneSLBuffer = zoneSLBuffer :=
    if_neg (ne_of_gt hb0)
  have hA1 : (longStopLossRaw setup (resolveSLBuffer zoneSLBuffer)).2 < setup.price := by
    unfold longStopLossRaw
    cases hsl : findStopLossZone setup.price setup.zones.support .LONG with
    | some z =>
      dsimp only
      obtain ⟨hzmem, hzc, _⟩ := findStopLossZone_spec _ _ _ _ hsl
      have hwf := hsup z hzmem
      have hpb : 0 < z.lower * (resolveSLBuffer zoneSLBuffer / 100) := by
        rw [hbr]
        exact mul_pos hwf.1 (div_pos hb0 (by norm_num))
      have hcz := hzc rfl
      have hlc := hwf.2.1
      linarith
    | none =>
      dsimp only
      cases hz : setup.zone with
      | some z =>
        dsimp only
        obtain ⟨hwf, hlow⟩ := hown z (by simp [hz])
        have hpb : 0 < z.lower * (resolveSLBuffer zoneSLBuffer / 100) := by
          rw [hbr]
          exact mul_pos hwf.1 (div_pos hb0 (by norm_num))
        linarith
      | none =>
        dsimp only
        linarith
  have hrisk : 0 < setup.price -
      (longStopLossRaw setup (resolveSLBuffer zoneSLBuffer)).2 := by linarith
  have hTP : setup.price <
      (longTPsRaw setup (longStopLossRaw setup (resolveSLBuffer zoneSLBuffer)).2).1 ∧
      ((longTPsRaw setup
          (longStopLossRaw setup (resolveSLBuffer zoneSLBuffer)).2).2.2.length ≠ 1 →
        (longTPsRaw setup
            (longStopLossRaw setup (resolveSLBuffer zoneSLBuffer)).2).1 ≤
          (longTPsRaw setup
            (longStopLossRaw setup (resolveSLBuffer zoneSLBuffer)).2).2.1) := by
    unfold longTPsRaw
    cases htp : findNextOpposingZones setup.price setup.zones.resistance .LONG 3 with
    | nil =>
      dsimp only
      exact ⟨by linarith, fun _ => by linarith⟩
    | cons z1 rest =>
      have h1 := (findNextOpposingZones_mem setup.price setup.zones.resistance
        .LONG 3 z1 (by rw [htp]; exact List.mem_cons_self _ _)).1 rfl
      cases rest with
      | nil =>
        dsimp only
        exact ⟨h1.1, fun hlen => absurd rfl hlen⟩
      | cons z2 rest2 =>
        have h2 := (findNextOpposingZones_mem setup.price setup.zones.resistance
          .LONG 3 z2 (by
            rw [htp]
            exact List.mem_cons_of_mem _ (List.mem_cons_self _ _))).1 rfl
        have hsorted := findNextOpposingZones_sorted setup.price
          setup.zones.resistance .LONG 3
        rw [htp] at hsorted
        have hd : oppLE z1 z2 :=
          (List.pairwise_cons.mp hsorted).1 z2 (List.mem_cons_self _ _)
        have hdist : z1.distance ≤ z2.distance := hd
        dsimp only
        refine ⟨h1.1, fun _ => ?_⟩
        rw [h1.2, h2.2] at hdist
        linarith
  have hL : calculateLevels setup zoneSLBuffer =
      mkLevels setup.price
        (longStopLossRaw setup (resolveSLBuffer zoneSLBuffer)).2
        (longTPsRaw setup (longStopLossRaw setup (resolveSLBuffer zoneSLBuffer)).2).1
        (longTPsRaw setup (longStopLossRaw setup (resolveSLBuffer zoneSLBuffer)).2).2.1
        (longStopLossRaw setup (resolveSLBuffer zoneSLBuffer)).1
        (longTPsRaw setup (longStopLossRaw setup (resolveSLBuffer zoneSLBuffer)).2).2.2 := by
    unfold calculateLevels
    rw [hside]
  have hrr : (calculateLevels setup zoneSLBuffer).riskReward1 =
      jsToFixed 2
        (((longTPsRaw setup
              (longStopLossRaw setup (resolveSLBuffer zoneSLBuffer)).2).1 -
            setup.price) /
          (setup.price -
            (longStopLossRaw setup (resolveSLBuffer zoneSLBuffer)).2)) := by
    rw [hL]
    unfold mkLevels
    dsimp only
    rw [abs_of_pos (by linarith [hTP.1]), abs_of_pos hrisk]
  refine ⟨hA1, hTP.1, hTP.2, ?_, ?_, hrr, ?_⟩
  · rw [hL]
    unfold mkLevels
    dsimp only
    exact jsToFixed_mono 8 (le_of_lt hA1)
  · rw [hL]
    unfold mkLevels
    dsimp only
    exact jsToFixed_mono 8 (le_of_lt hTP.1)
  · rw [hrr]
    have hclose := jsToFixed_close 2
      (((longTPsRaw setup
            (longStopLossRaw setup (resolveSLBuffer zoneSLBuffer)).2).1 -
          setup.price) /
        (setup.price -
          (longStopLossRaw setup (resolveSLBuffer zoneSLBuffer)).2))
    have h200 : (1 : ℚ) / (2 * 10 ^ 2) = 1 / 200 := by norm_num
    rw [h200] at hclose
    exact hclose

theorem levels_short_ok (setup : Setup) (zoneSLBuffer : ℚ)
    (hside : setup.side = .SHORT)
    (hres : ∀ z ∈ setup.zones.resistance, ZoneWF z)
    (hown : ∀ z ∈ setup.zone.toList, ZoneWF z ∧ setup.price < z.upper)
    (hprice : 0 < setup.price)
    (hb0 : 0 < zoneSLBuffer) (hb100 : zoneSLBuffer < 100) :
    setup.price < (shortStopLossRaw setup (resolveSLBuffer zoneSLBuffer)).2 ∧
      (shortTPsRaw setup
          (shortStopLossRaw setup (resolveSLBuffer zoneSLBuffer)).2).1 <
        setup.price ∧
      ((shortTPsRaw setup
            (shortStopLossRaw setup (resolveSLBuffer zoneSLBuffer)).2).2.2.length ≠ 1 →
        (shortTPsRaw setup
            (shortStopLossRaw setup (resolveSLBuffer zoneSLBuffer)).2).2.1 ≤
          (shortTPsRaw setup
            (shortStopLossRaw setup (resolveSLBuffer zoneSLBuffer)).2).1) ∧
      (calculateLevels setup zoneSLBuffer).entry ≤
        (calculateLevels setup zoneSLBuffer).stopLoss ∧
      (calculateLevels setup zoneSLBuffer).takeProfit1 ≤
        (calculateLevels setup zoneSLBuffer).entry ∧
      (calculateLevels setup zoneSLBuffer).riskReward1 =
        jsToFixed 2
          ((setup.price -
              (shortTPsRaw setup
                (shortStopLossRaw setup (resolveSLBuffer zoneSLBuffer)).2).1) /
            ((shortStopLossRaw setup (resolveSLBuffer zoneSLBuffer)).2 -
              setup.price)) ∧
      |(calculateLevels setup zoneSLBuffer).riskReward1 -
          (setup.price -
              (shortTPsRaw setup
                (shortStopLossRaw setup (resolveSLBuffer zoneSLBuffer)).2).1) /
            ((shortStopLossRaw setup (resolveSLBuffer zoneSLBuffer)).2 -
              setup.price)| ≤ 1 / 200 := by
  have hbr : resolveSLBuffer zoneSLBuffer = zoneSLBuffer :=
    if_neg (ne_of_gt hb0)
  have hA1 : setup.price < (shortStopLossRaw setup (resolveSLBuffer zoneSLBuffer)).2 := by
    unfold shortStopLossRaw
    cases hsl : findStopLossZone setup.price setup.zones.resistance .SHORT with
    | some z =>
      dsimp only
      obtain ⟨hzmem, _, hzc⟩ := findStopLossZone_spec _ _ _ _ hsl
      have hwf := hres z hzmem
      have hupos : 0 < z.upper := by
        have := hwf.1
        have := hwf.2.1
        have := hwf.2.2
        linarith
      have hpb : 0 < z.upper * (resolveSLBuffer zoneSLBuffer / 100) := by
        rw [hbr]
        exact mul_pos hupos (div_pos hb0 (by norm_num))
      have hcz := hzc rfl
      have huc := hwf.2.2
      linarith
    | none =>
      dsimp only
      cases hz : setup.zone with
      | some z =>
        dsimp only
        obtain ⟨hwf, hup⟩ := hown z (by simp [hz])
        have hupos : 0 < z.upper := by
          have := hwf.1
          have := hwf.2.1
          have := hwf.2.2
          linarith
        have hpb : 0 < z.upper * (resolveSLBuffer zoneSLBuffer / 100) := by
          rw [hbr]
          exact mul_pos hupos (div_pos hb0 (by norm_num))
        linarith
      | none =>
        dsimp only
        linarith
  have hrisk : 0 < (shortStopLossRaw setup (resolveSLBuffer zoneSLBuffer)).2 -
      setup.price := by linarith
  have hTP : (shortTPsRaw setup
        (shortStopLossRaw setup (resolveSLBuffer zoneSLBuffer)).2).1 < setup.price ∧
      ((shortTPsRaw setup
          (shortStopLossRaw setup (resolveSLBuffer zoneSLBuffer)).2).2.2.length ≠ 1 →
        (shortTPsRaw setup
            (shortStopLossRaw setup (resolveSLBuffer zoneSLBuffer)).2).2.1 ≤
          (shortTPsRaw setup
            (shortStopLossRaw setup (resolveSLBuffer zoneSLBuffer)).2).1) := by
    unfold shortTPsRaw
    cases htp : findNextOpposingZones setup.price setup.zones.support .SHORT 3 with
    | nil =>
      dsimp only
      exact ⟨by linarith, fun _ => by linarith⟩
    | cons z1 rest =>
      have h1 := (findNextOpposingZones_mem setup.price setup.zones.support
        .SHORT 3 z1 (by rw [htp]; exact List.mem_cons_self _ _)).2 rfl
      cases rest with
      | nil =>
        dsimp only
        exact ⟨h1.1, fun hlen => absurd rfl hlen⟩
      | cons z2 rest2 =>
        have h2 := (findNextOpposingZones_mem setup.price setup.zones.support
          .SHORT 3 z2 (by
            rw [htp]
            exact List.mem_cons_of_mem _ (List.mem_cons_self _ _))).2 rfl
        have hsorted := findNextOpposingZones_sorted setup.price
          setup.zones.support .SHORT 3
        rw [htp] at hsorted
        have hd : oppLE z1 z2 :=
          (List.pairwise_cons.mp hsorted).1 z2 (List.mem_cons_self _ _)
        have hdist : z1.distance ≤ z2.distance := hd
        dsimp only
        refine ⟨h1.1, fun _ => ?_⟩
        rw [h1.2, h2.2] at hdist
        linarith
  have hL : calculateLevels setup zoneSLBuffer =
      mkLevels setup.price
        (shortStopLossRaw setup (resolveSLBuffer zoneSLBuffer)).2
        (shortTPsRaw setup (shortStopLossRaw setup (resolveSLBuffer zoneSLBuffer)).2).1
        (shortTPsRaw setup (shortStopLossRaw setup (resolveSLBuffer zoneSLBuffer)).2).2.1
        (shortStopLossRaw setup (resolveSLBuffer zoneSLBuffer)).1
        (shortTPsRaw setup (shortStopLossRaw setup (resolveSLBuffer zoneSLBuffer)).2).2.2 := by
    unfold calculateLevels
    rw [hside]
  have hrr : (calculateLevels setup zoneSLBuffer).riskReward1 =
      jsToFixed 2
        ((setup.price -
            (shortTPsRaw setup
              (shortStopLossRaw setup (resolveSLBuffer zoneSLBuffer)).2).1) /
          ((shortStopLossRaw setup (resolveSLBuffer zoneSLBuffer)).2 -
            setup.price)) := by
    rw [hL]
    unfold mkLevels
    dsimp only
    rw [abs_of_neg (by linarith [hTP.1]), abs_of_neg (by linarith : setup.price -
      (shortStopLossRaw setup (resolveSLBuffer zoneSLBuffer)).2 < 0),
      neg_sub, neg_sub]
  refine ⟨hA1, hTP.1, hTP.2, ?_, ?_, hrr, ?_⟩
  · rw [hL]
    unfold mkLevels
    dsimp only
    exact jsToFixed_mono 8 (le_of_lt hA1)
  · rw [hL]
    unfold mkLevels
    dsimp only
    exact jsToFixed_mono 8 (le_of_lt hTP.1)
  · rw [hrr]
    have hclose := jsToFixed_close 2
      ((setup.price -
          (shortTPsRaw setup
            (shortStopLossRaw setup (resolveSLBuffer zoneSLBuffer)).2).1) /
        ((shortStopLossRaw setup (resolveSLBuffer zoneSLBuffer)).2 -
          setup.price))
    have h200 : (1 : ℚ) / (2 * 10 ^ 2) = 1 / 200 := by norm_num
    rw [h200] at hclose
    exact hclose

/-- C1.  The claim as stated is false: with a single take-profit zone the
second target is the `3R` fallback, which can lie below `takeProfit1`, and
`riskReward1` is displayed through `toFixed(2)`, so it matches the true
ratio only to within half a cent, not `1e-6`.  `setupOneTP` (entry 100,
support zone at 99, a single resistance zone at 110, buffer 0.2%) exhibits
both failures: `takeProfit2 = 104.1928 < 110 = takeProfit1` and
`|riskReward1 − ratio| ≈ 0.0049 > 1e-6`. -/
theorem calculateLevels_claim_counterexample :
    (calculateLevels setupOneTP (1 / 5)).takeProfit2 <
        (calculateLevels setupOneTP (1 / 5)).takeProfit1 ∧
      ¬|(calculateLevels setupOneTP (1 / 5)).riskReward1 -
          ((calculateLevels setupOneTP (1 / 5)).takeProfit1 -
              (calculateLevels setupOneTP (1 / 5)).entry) /
            ((calculateLevels setupOneTP (1 / 5)).entry -
              (calculateLevels setupOneTP (1 / 5)).stopLoss)| ≤
        1 / 1000000 := by
  with_unfolding_all decide

/-- C1 (amended).  For every setup with well-formed attached zones (each
zone has `0 < lower < center < upper`), a setup zone on the loss side of
the entry when present, a positive entry price and a stop-loss buffer in
`(0, 100)`: for side LONG the raw stop-loss is strictly below the entry
and the raw first target strictly above it; whenever the take-profit zone
list does not have exactly one element, `takeProfit1 ≤ takeProfit2` holds
on the raw values; after `toFixed(8)` rounding the published levels
satisfy the non-strict chain `stopLoss ≤ entry ≤ takeProfit1`; and
`riskReward1` is exactly `toFixed(2)` of `(TP1−entry)/(entry−stopLoss)`,
hence within `1/200` of it.  Side SHORT is the mirror image. -/
theorem calculateLevels_directionality (setup : Setup) (zoneSLBuffer : ℚ)
    (hsup : ∀ z ∈ setup.zones.support, ZoneWF z)
    (hres : ∀ z ∈ setup.zones.resistance, ZoneWF z)
    (hown : ∀ z ∈ setup.zone.toList, ZoneWF z ∧
      (setup.side = .LONG → z.lower < setup.price) ∧
      (setup.side = .SHORT → setup.price < z.upper))
    (hprice : 0 < setup.price)
    (hb0 : 0 < zoneSLBuffer) (hb100 : zoneSLBuffer < 100) :
    (setup.side = .LONG →
      (longStopLossRaw setup (resolveSLBuffer zoneSLBuffer)).2 < setup.price ∧
        setup.price <
          (longTPsRaw setup
            (longStopLossRaw setup (resolveSLBuffer zoneSLBuffer)).2).1 ∧
        ((longTPsRaw setup
              (longStopLossRaw setup (resolveSLBuffer zoneSLBuffer)).2).2.2.length ≠ 1 →
          (longTPsRaw setup
              (longStopLossRaw setup (resolveSLBuffer zoneSLBuffer)).2).1 ≤
            (longTPsRaw setup
              (longStopLossRaw setup (resolveSLBuffer zoneSLBuffer)).2).2.1) ∧
        (calculateLevels setup zoneSLBuffer).stopLoss ≤
          (calculateLevels setup zoneSLBuffer).entry ∧
        (calculateLevels setup zoneSLBuffer).entry ≤
          (calculateLevels setup zoneSLBuffer).takeProfit1 ∧
        (calculateLevels setup zoneSLBuffer).riskReward1 =
          jsToFixed 2
            (((longTPsRaw setup
                  (longStopLossRaw setup (resolveSLBuffer zoneSLBuffer)).2).1 -
                setup.price) /
              (setup.price -
                (longStopLossRaw setup (resolveSLBuffer zoneSLBuffer)).2)) ∧
        |(calculateLevels setup zoneSLBuffer).riskReward1 -
            ((longTPsRaw setup
                  (longStopLossRaw setup (resolveSLBuffer zoneSLBuffer)).2).1 -
                setup.price) /
              (setup.price -
                (longStopLossRaw setup (resolveSLBuffer zoneSLBuffer)).2)| ≤
          1 / 200) ∧
    (setup.side = .SHORT →
      setup.price < (shortStopLossRaw setup (resolveSLBuffer zoneSLBuffer)).2 ∧
        (shortTPsRaw setup
            (shortStopLossRaw setup (resolveSLBuffer zoneSLBuffer)).2).1 <
          setup.price ∧
        ((shortTPsRaw setup
              (shortStopLossRaw setup (resolveSLBuffer zoneSLBuffer)).2).2.2.length ≠ 1 →
          (shortTPsRaw setup
              (shortStopLossRaw setup (resolveSLBuffer zoneSLBuffer)).2).2.1 ≤
            (shortTPsRaw setup
              (shortStopLossRaw setup (resolveSLBuffer zoneSLBuffer)).2).1) ∧
        (calculateLevels setup zoneSLBuffer).entry ≤
          (calculateLevels setup zoneSLBuffer).stopLoss ∧
        (calculateLevels setup zoneSLBuffer).takeProfit1 ≤
          (calculateLevels setup zoneSLBuffer).entry ∧
        (calculateLevels setup zoneSLBuffer).riskReward1 =
          jsToFixed 2
            ((setup.price -
                (shortTPsRaw setup
                  (shortStopLossRaw setup (resolveSLBuffer zoneSLBuffer)).2).1) /
              ((shortStopLossRaw setup (resolveSLBuffer zoneSLBuffer)).2 -
                setup.price)) ∧
        |(calculateLevels setup zoneSLBuffer).riskReward1 -
            (setup.price -
                (shortTPsRaw setup
                  (shortStopLossRaw setup (resolveSLBuffer zoneSLBuffer)).2).1) /
              ((shortStopLossRaw setup (resolveSLBuffer zoneSLBuffer)).2 -
                setup.price)| ≤ 1 / 200) := by
  constructor
  · intro hside
    exact levels_long_ok setup zoneSLBuffer hside hsup
      (fun z hz => ⟨(hown z hz).1, (hown z hz).2.1 hside⟩) hprice hb0 hb100
  · intro hside
    exact levels_short_ok setup zoneSLBuffer hside hres
      (fun z hz => ⟨(hown z hz).1, (hown z hz).2.2 hside⟩) hprice hb0 hb100

/-- Witness for `calculateLevels_directionality`: the two-TP-zone LONG
setup `setupTwoTP` with buffer `0.2` satisfies every hypothesis, and the
published levels obey the amended ordering and ratio bound. -/
theorem calculateLevels_directionality_witness :
    (calculateLevels setupTwoTP (1 / 5)).stopLoss ≤
        (calculateLevels setupTwoTP (1 / 5)).entry ∧
      (calculateLevels setupTwoTP (1 / 5)).entry ≤
        (calculateLevels setupTwoTP (1 / 5)).takeProfit1 ∧
      (longTPsRaw setupTwoTP
          (longStopLossRaw setupTwoTP (resolveSLBuffer (1 / 5))).2).1 ≤
        (longTPsRaw setupTwoTP
          (longStopLossRaw setupTwoTP (resolveSLBuffer (1 / 5))).2).2.1 ∧
      |(calculateLevels setupTwoTP (1 / 5)).riskReward1 -
          ((longTPsRaw setupTwoTP
                (longStopLossRaw setupTwoTP (resolveSLBuffer (1 / 5))).2).1 -
              setupTwoTP.price) /
            (setupTwoTP.price -
              (longStopLossRaw setupTwoTP (resolveSLBuffer (1 / 5))).2)| ≤
        1 / 200 := by
  have h := (calculateLevels_directionality setupTwoTP (1 / 5)
    (by with_unfolding_all decide) (by with_unfolding_all decide)
    (by with_unfolding_all decide) (by with_unfolding_all decide)
    (by norm_num) (by norm_num)).1 (by with_unfolding_all decide)
  refine ⟨h.2.2.2.1, h.2.2.2.2.1, h.2.2.1 ?_, h.2.2.2.2.2.2⟩
  with_unfolding_all decide
